import Mathlib

/-!
Verification of the SuryaDANAFramework orchestration core.

The repository consists of one orchestrator class (`src/DANA/DANAFramework.py`)
whose methods other than `danaJob` and `run` are unimplemented extension points,
plus six phase-tagged exception classes under `src/DANAExceptions/`.  We embed
the orchestrator shallowly: the extension points become fields of a
`DANAFramework` structure returning `Except PyError α`, and the orchestrator's
observable behaviour (which contract methods it invokes, with which arguments,
in which order) is recorded as a trace of `Event`s.  Python local-variable
semantics matter here: `itemname` and `epoch` are function-locals of `danaJob`
that persist across iterations of the per-item loop, so the exception handler
at line 316 can observe values bound during an earlier item; we model the pair
of locals explicitly as `Option` values threaded through the loop.
-/

namespace SuryaDANA

/-- The six concrete subclasses of `DANAException` present in the repository
(`src/DANAExceptions/`).  Each constructor carries the payload fields set by
the corresponding Python `__init__`.  The abstract base class module
`DANAExceptions/DANAException.py` is not under `src/`; following the spec
(section 7), the classified failure taxonomy is exactly these subclasses. -/
inductive DANAException where
  | CalibrationError (err : String)
  | CompuCalibrationError (err : String) (preProcessingResult : String)
  | PprocCalibrationError (err : String)
  | PreProcessingError (str : String) (result : String) (err : String)
  | ResultComputationError (err : String) (preProcessingResult : String) (computationResult : String)
  | ResultSavingError (err : String)
  deriving DecidableEq, Repr

/-- The `phase` attribute, as assigned by each subclass `__init__`:
`CalibrationError` sets "CALIB", `CompuCalibrationError` sets "COMPUCALIB",
`PprocCalibrationError` sets "PPROCCALIB", `PreProcessingError` sets "PPROC",
`ResultComputationError` sets "COMPU", `ResultSavingError` sets "SAVIN".
No method of any of these classes assigns `phase` outside `__init__`, so in
the embedding the tag is a function of the constructed value. -/
def DANAException.phase : DANAException → String
  | .CalibrationError _ => "CALIB"
  | .CompuCalibrationError _ _ => "COMPUCALIB"
  | .PprocCalibrationError _ => "PPROCCALIB"
  | .PreProcessingError _ _ _ => "PPROC"
  | .ResultComputationError _ _ _ => "COMPU"
  | .ResultSavingError _ => "SAVIN"

/-- The `__str__` method of each exception class: every class renders
`str(self.err)`, except `PreProcessingError` which renders
`self.str + " " + str(self.err)`. -/
def DANAException.pyStr : DANAException → String
  | .CalibrationError err => err
  | .CompuCalibrationError err _ => err
  | .PprocCalibrationError err => err
  | .PreProcessingError s _ err => s ++ " " ++ err
  | .ResultComputationError err _ _ => err
  | .ResultSavingError err => err

/-- The Python class name of an exception value. -/
def DANAException.typeName : DANAException → String
  | .CalibrationError _ => "CalibrationError"
  | .CompuCalibrationError _ _ => "CompuCalibrationError"
  | .PprocCalibrationError _ => "PprocCalibrationError"
  | .PreProcessingError _ _ _ => "PreProcessingError"
  | .ResultComputationError _ _ _ => "ResultComputationError"
  | .ResultSavingError _ => "ResultSavingError"

/-- A Python exception as seen by `danaJob`'s two handlers: line 315
(`except DANAException, err`) catches exactly the `dana` constructor;
line 319 (`except Exception, err`) catches everything. -/
inductive PyError where
  | dana (e : DANAException)
  | other (msg : String)
  deriving DecidableEq, Repr

/-- The `UnboundLocalError` Python raises when a function-local variable is
referenced before any assignment to it has executed; this is an unclassified
exception (not a `DANAException`). -/
def unboundLocal (v : String) : PyError :=
  .other ("UnboundLocalError: local variable " ++ v ++ " referenced before assignment")

/-- Models `str(sys.exc_info())` as returned at `DANAFramework.py` line 320:
a rendering of the pending exception (type, value, traceback). -/
def excInfoStr : PyError → String
  | .dana e => "(" ++ e.typeName ++ ", " ++ e.pyStr ++ ", <traceback>)"
  | .other msg => "(Exception, " ++ msg ++ ", <traceback>)"

/-- Modelled from the spec: the `ExitCode` enumeration imported from
`DANASettings.Settings`, whose module is not under `src/`.  Section 3 of the
spec fixes `CycleOutcome` status as a member of the two-element set
Success / Failed. -/
inductive ExitCode where
  | Success
  | Failed
  deriving DecidableEq, Repr

/-- One observable contract-method invocation made by `danaJob`, recording the
method and the arguments passed at its call site in `DANAFramework.py`:
`getDataItems` (line 271), `isProcessed` (276), `isValid` (280),
`getItemName` (285), `getCurrentEpoch` (288), `preProcessDataItem` (292),
`getCalibrationConfigurations` (299), `computeDANAResult` (308),
`saveDANAResult` (313), and `onError` (316) which receives the five
positional arguments `(itemname, dataItem, epoch, err, err.phase)`. -/
inductive Event (It Cfg Pre : Type) where
  | getDataItemsCall
  | isProcessedCall (dataItem : It)
  | isValidCall (dataItem : It)
  | getItemNameCall (dataItem : It)
  | getCurrentEpochCall (dataItem : It)
  | preProcessCall (itemname : String) (dataItem : It) (epoch : Nat)
  | getConfigsCall (itemname : String) (dataItem : It) (preProcessingResult : Pre)
  | computeCall (itemname : String) (dataItem : It) (epoch : Nat)
      (calibrationConfiguration : Cfg) (preProcessingResult : Pre)
  | saveCall (itemname : String) (dataItem : It) (epoch : Nat)
  | onErrorCall (itemname : String) (dataItem : It) (epoch : Nat)
      (err : DANAException) (phase : String)
  deriving DecidableEq, Repr

/-- The pipeline contract: the overridable methods of class `DANAFramework`
that `danaJob` and `run` invoke.  Each fallible call returns
`Except PyError α`; an `error` value is the exception the call raised.
`It` is the opaque Item type, `Cfg` a calibration configuration, `Pre` a
pre-processing result and `Res` a computation result (the value returned by
`computeDANAResult` at line 308 is discarded by the orchestrator, and
`saveDANAResult` does not receive it). -/
structure DANAFramework (It Cfg Pre Res : Type) where
  getDataItems : Except PyError (List It)
  isProcessed : It → Except PyError Bool
  isValid : It → Except PyError Bool
  getItemName : It → Except PyError String
  getCurrentEpoch : It → Except PyError Nat
  preProcessDataItem : String → It → Nat → Except PyError Pre
  getCalibrationConfigurations : String → It → Pre → Except PyError (List Cfg)
  computeDANAResult : String → It → Nat → Cfg → Pre → Except PyError Res
  saveDANAResult : String → It → Nat → Except PyError Unit

variable {It Cfg Pre Res : Type}

/-- The inner `for calibrationConfiguration in calibrationConfigurations`
loop (lines 304 to 308): invoke `computeDANAResult` on each configuration in
order; the first raised exception stops the loop and propagates. -/
def computeLoop (F : DANAFramework It Cfg Pre Res) (itemname : String) (dataItem : It)
    (epoch : Nat) (preProcessingResult : Pre) :
    List Cfg → List (Event It Cfg Pre) × Option PyError
  | [] => ([], none)
  | c :: rest =>
    match F.computeDANAResult itemname dataItem epoch c preProcessingResult with
    | .error e => ([Event.computeCall itemname dataItem epoch c preProcessingResult], some e)
    | .ok _ =>
      let r := computeLoop F itemname dataItem epoch preProcessingResult rest
      (Event.computeCall itemname dataItem epoch c preProcessingResult :: r.1, r.2)

/-- Result of running one item through the body of the per-item `try` block:
the events emitted, the bindings (if any) this iteration made to the
function-locals `itemname` and `epoch`, and the exception (if any) the body
raised. -/
structure BodyResult (It Cfg Pre : Type) where
  events : List (Event It Cfg Pre)
  itemname : Option String
  epoch : Option Nat
  raised : Option PyError
  deriving DecidableEq, Repr

/-- The body of the per-item `try` block (lines 276 to 313): skip check
`force or (not isProcessed(dataItem))`, validation, naming, epoch fetch,
pre-processing, configuration resolution, the compute fan-out and the save.
`itemname` and `epoch` in the result are the bindings made by lines 285 and
288 during this iteration (`none` when control never reached or never
completed the corresponding assignment). -/
def runItemBody (F : DANAFramework It Cfg Pre Res) (force : Bool) (dataItem : It) :
    BodyResult It Cfg Pre :=
  match (if force then ([], Except.ok true) else
      ([Event.isProcessedCall dataItem],
       match F.isProcessed dataItem with
       | .ok b => Except.ok (!b)
       | .error e => Except.error e) :
       List (Event It Cfg Pre) × Except PyError Bool) with
  | (ev0, .error e) => ⟨ev0, none, none, some e⟩
  | (ev0, .ok false) => ⟨ev0, none, none, none⟩
  | (ev0, .ok true) =>
    match F.isValid dataItem with
    | .error e => ⟨ev0 ++ [Event.isValidCall dataItem], none, none, some e⟩
    | .ok false => ⟨ev0 ++ [Event.isValidCall dataItem], none, none, none⟩
    | .ok true =>
      match F.getItemName dataItem with
      | .error e =>
        ⟨ev0 ++ [Event.isValidCall dataItem, Event.getItemNameCall dataItem], none, none, some e⟩
      | .ok itemname =>
        match F.getCurrentEpoch dataItem with
        | .error e =>
          ⟨ev0 ++ [Event.isValidCall dataItem, Event.getItemNameCall dataItem,
              Event.getCurrentEpochCall dataItem], some itemname, none, some e⟩
        | .ok epoch =>
          match F.preProcessDataItem itemname dataItem epoch with
          | .error e =>
            ⟨ev0 ++ [Event.isValidCall dataItem, Event.getItemNameCall dataItem,
                Event.getCurrentEpochCall dataItem,
                Event.preProcessCall itemname dataItem epoch],
             some itemname, some epoch, some e⟩
          | .ok preProcessingResult =>
            match F.getCalibrationConfigurations itemname dataItem preProcessingResult with
            | .error e =>
              ⟨ev0 ++ [Event.isValidCall dataItem, Event.getItemNameCall dataItem,
                  Event.getCurrentEpochCall dataItem,
                  Event.preProcessCall itemname dataItem epoch,
                  Event.getConfigsCall itemname dataItem preProcessingResult],
               some itemname, some epoch, some e⟩
            | .ok calibrationConfigurations =>
              match computeLoop F itemname dataItem epoch preProcessingResult
                  calibrationConfigurations with
              | (cevs, some e) =>
                ⟨ev0 ++ [Event.isValidCall dataItem, Event.getItemNameCall dataItem,
                    Event.getCurrentEpochCall dataItem,
                    Event.preProcessCall itemname dataItem epoch,
                    Event.getConfigsCall itemname dataItem preProcessingResult] ++ cevs,
                 some itemname, some epoch, some e⟩
              | (cevs, none) =>
                match F.saveDANAResult itemname dataItem epoch with
                | .error e =>
                  ⟨ev0 ++ [Event.isValidCall dataItem, Event.getItemNameCall dataItem,
                      Event.getCurrentEpochCall dataItem,
                      Event.preProcessCall itemname dataItem epoch,
                      Event.getConfigsCall itemname dataItem preProcessingResult] ++ cevs ++
                      [Event.saveCall itemname dataItem epoch],
                   some itemname, some epoch, some e⟩
                | .ok _ =>
                  ⟨ev0 ++ [Event.isValidCall dataItem, Event.getItemNameCall dataItem,
                      Event.getCurrentEpochCall dataItem,
                      Event.preProcessCall itemname dataItem epoch,
                      Event.getConfigsCall itemname dataItem preProcessingResult] ++ cevs ++
                      [Event.saveCall itemname dataItem epoch],
                   some itemname, some epoch, none⟩

/-- One full iteration of the per-item loop: run the body, then apply the
handler `except DANAException, err` (lines 315 to 317).  `nm0` and `ep0` are
the values of the function-locals `itemname` and `epoch` on entry to the
iteration (bindings from earlier iterations persist in Python).  The handler
evaluates the call `self.onError(itemname, dataItem, epoch, err, err.phase)`;
if `itemname` (then `epoch`) has never been assigned, that reference raises
`UnboundLocalError`, which is not a `DANAException` and so escapes.  The
`raised` field of the result is the exception, if any, escaping the
iteration; `itemname` and `epoch` are the locals as the iteration leaves
them. -/
def processItem (F : DANAFramework It Cfg Pre Res) (force : Bool)
    (nm0 : Option String) (ep0 : Option Nat) (dataItem : It) : BodyResult It Cfg Pre :=
  let r := runItemBody F force dataItem
  let nm := r.itemname <|> nm0
  let ep := r.epoch <|> ep0
  match r.raised with
  | none => ⟨r.events, nm, ep, none⟩
  | some (.dana err) =>
    match nm with
    | none => ⟨r.events, nm, ep, some (unboundLocal "itemname")⟩
    | some n =>
      match ep with
      | none => ⟨r.events, nm, ep, some (unboundLocal "epoch")⟩
      | some p =>
        ⟨r.events ++ [Event.onErrorCall n dataItem p err err.phase], nm, ep, none⟩
  | some e => ⟨r.events, nm, ep, some e⟩

/-- The `for dataItem in dataItems` loop of `danaJob` (lines 274 to 317),
threading the persistent locals.  An exception escaping one iteration
(`raised = some e`) aborts the loop; the remaining items are not visited. -/
def danaLoop (F : DANAFramework It Cfg Pre Res) (force : Bool) :
    Option String → Option Nat → List It → BodyResult It Cfg Pre
  | nm0, ep0, [] => ⟨[], nm0, ep0, none⟩
  | nm0, ep0, i :: rest =>
    let r := processItem F force nm0 ep0 i
    match r.raised with
    | some _ => r
    | none =>
      let r2 := danaLoop F force r.itemname r.epoch rest
      ⟨r.events ++ r2.events, r2.itemname, r2.epoch, r2.raised⟩

/-- `danaJob` (lines 255 to 322): fetch the items, run the per-item loop, and
convert any exception reaching the outer `except Exception` handler into
`(ExitCode.Failed, str(sys.exc_info()))`; otherwise return
`(ExitCode.Success, "")`.  The second component of the result is the trace of
contract invocations the cycle performed. -/
def danaJob (F : DANAFramework It Cfg Pre Res) (force : Bool) :
    (ExitCode × String) × List (Event It Cfg Pre) :=
  match F.getDataItems with
  | .error e => ((ExitCode.Failed, excInfoStr e), [Event.getDataItemsCall])
  | .ok items =>
    let r := danaLoop F force none none items
    match r.raised with
    | some e => ((ExitCode.Failed, excInfoStr e), Event.getDataItemsCall :: r.events)
    | none => ((ExitCode.Success, ""), Event.getDataItemsCall :: r.events)

/-- One observable action of the `run` loop (lines 324 to 351): the info logs
around the cycle, the cycle itself, the critical log on a non-Success exit
code, and the `time.sleep(timeinterval)` call. -/
inductive RunEvent (It Cfg Pre : Type) where
  | logInfo (msg : String)
  | logCritical (msg : String)
  | jobRun (result : ExitCode × String) (events : List (Event It Cfg Pre))
  | sleepCall (secs : Nat)
  deriving DecidableEq, Repr

/-- One iteration of the `while True` loop in `run` (lines 341 to 350):
`danaJob(force)` when `force` is truthy, else `danaJob()` whose `force`
parameter defaults to `False`; then the critical log exactly when
`exitcode is not ExitCode.Success`, then the sleep. -/
def runIteration (F : DANAFramework It Cfg Pre Res) (timeinterval : Nat) (force : Bool) :
    List (RunEvent It Cfg Pre) :=
  let r := if force then danaJob F force else danaJob F false
  [RunEvent.logInfo ("Running Data ANAlysis"), RunEvent.jobRun r.1 r.2,
   RunEvent.logInfo ("Done Running Data ANAlysis")] ++
  (if r.1.1 ≠ ExitCode.Success then
    [RunEvent.logCritical (("computation cycle failed") ++ r.1.2)] else []) ++
  [RunEvent.sleepCall timeinterval]

/-- The fuelled unrolling of the `while True` loop: `fuel` bounds how many
iterations we observe of a loop that has no termination condition of its
own. -/
def runCycles (F : DANAFramework It Cfg Pre Res) (timeinterval : Nat) (force : Bool) :
    Nat → List (RunEvent It Cfg Pre)
  | 0 => []
  | n + 1 => runIteration F timeinterval force ++ runCycles F timeinterval force n

/-- The `run` method (lines 324 to 351).  `getLock` is the single-instance
execution guard from `Locking.AppLock`, whose module is not under `src/`;
modelled from the spec (section 6) as the collaborator
`acquire(lockIdentifier, programName) -> bool`, passed here as a function
argument.  When the guard is refused, `run` returns at once (line 339):
no cycle, no log, no sleep. -/
def run (F : DANAFramework It Cfg Pre Res) (getLock : String → String → Bool)
    (pidfile programname : String) (timeinterval : Nat) (force : Bool) (fuel : Nat) :
    List (RunEvent It Cfg Pre) :=
  if getLock pidfile programname then runCycles F timeinterval force fuel else []

/-- Whether an event is an `onError` invocation. -/
def Event.isOnError : Event It Cfg Pre → Bool
  | .onErrorCall _ _ _ _ _ => true
  | _ => false

/-- Whether an event is a `saveDANAResult` invocation. -/
def Event.isSave : Event It Cfg Pre → Bool
  | .saveCall _ _ _ => true
  | _ => false

/-- Whether an event is an `isProcessed` invocation (the skip check). -/
def Event.isSkipCheck : Event It Cfg Pre → Bool
  | .isProcessedCall _ => true
  | _ => false

/-- Whether an event is an invocation of a per-item pipeline step proper,
that is, anything past the fetch and the skip check: validation, naming,
epoch fetch, pre-processing, configuration resolution, computation, saving,
or error routing. -/
def Event.isPipelineStep : Event It Cfg Pre → Bool
  | .getDataItemsCall => false
  | .isProcessedCall _ => false
  | _ => true

/-- Whether an event is an invocation of a pipeline step strictly beyond
validation (naming, epoch fetch, pre-processing, configuration resolution,
computation, saving) or of the error handler. -/
def Event.isBeyondValidation : Event It Cfg Pre → Bool
  | .getDataItemsCall => false
  | .isProcessedCall _ => false
  | .isValidCall _ => false
  | _ => true

/-- The payload of an `onError` invocation: the five positional arguments
passed at line 316. -/
def Event.onErrorData : Event It Cfg Pre → Option (String × It × Nat × DANAException × String)
  | .onErrorCall nm i ep err ph => some (nm, i, ep, err, ph)
  | _ => none

/-- The error object and phase argument of an `onError` invocation. -/
def Event.onErrorErrPhase : Event It Cfg Pre → Option (DANAException × String)
  | .onErrorCall _ _ _ err ph => some (err, ph)
  | _ => none

/-- The epoch argument of an `onError` invocation. -/
def Event.onErrorEpoch : Event It Cfg Pre → Option Nat
  | .onErrorCall _ _ ep _ _ => some ep
  | _ => none

/-- The canonical four components `(ItemName, Item, Phase, cause)` of an
`onError` invocation, the tuple the spec (section 4.1) declares as the
handler contract. -/
def Event.onErrorCanonical : Event It Cfg Pre → Option (String × It × String × DANAException)
  | .onErrorCall nm i _ err ph => some (nm, i, ph, err)
  | _ => none

/-- The events emitted by the skip check of one iteration: with `force` set
the check short-circuits without calling `isProcessed`. -/
def skipEvs (force : Bool) (dataItem : It) : List (Event It Cfg Pre) :=
  if force then [] else [Event.isProcessedCall dataItem]

/-- A fallible contract call either returned normally or raised a classified
(`DANAException`-derived, phase-tagged) failure. -/
def ClassifiedOrOk {α : Type} (r : Except PyError α) : Prop :=
  (∃ a, r = .ok a) ∨ (∃ e, r = .error (.dana e))

/-- Modelled from the spec: the abstract `Phase` enumeration of section 3,
`PPROC_CALIB, PPROC, COMPU_CALIB, COMPU, SAVE`.  The spec identifies the
source strings with these tags: section 4.2 step f states the
multi-configuration variant uses `CALIB` for the tag written `COMPU_CALIB`,
and step h writes the save tag as `SAVE`/`SAVIN`. -/
inductive SpecPhase where
  | PPROC_CALIB
  | PPROC
  | COMPU_CALIB
  | COMPU
  | SAVE
  deriving DecidableEq, Repr

/-- Modelled from the spec: the correspondence between a phase string carried
by a propagated failure and the abstract enumerated tag of section 3
(`none` for a string outside the enumeration). -/
def specTagOf (s : String) : Option SpecPhase :=
  if s = "PPROCCALIB" then some .PPROC_CALIB
  else if s = "PPROC" then some .PPROC
  else if s = "COMPUCALIB" then some .COMPU_CALIB
  else if s = "CALIB" then some .COMPU_CALIB
  else if s = "COMPU" then some .COMPU
  else if s = "SAVIN" then some .SAVE
  else none

/-- Whether a run-loop event is a critical-severity diagnostic. -/
def RunEvent.isCritical : RunEvent It Cfg Pre → Bool
  | .logCritical _ => true
  | _ => false

/-- A concrete single-item implementation whose computation fails with a
classified `ResultComputationError` on configuration 10 (the first of two
resolved configurations) and succeeds elsewhere. -/
def FA : DANAFramework Nat Nat String String where
  getDataItems := Except.ok [0]
  isProcessed := fun _ => Except.ok false
  isValid := fun _ => Except.ok true
  getItemName := fun _ => Except.ok ("item0")
  getCurrentEpoch := fun _ => Except.ok 7
  preProcessDataItem := fun _ _ _ => Except.ok ("pre")
  getCalibrationConfigurations := fun _ _ _ => Except.ok [10, 20]
  computeDANAResult := fun _ _ _ c _ =>
    if c = 10 then Except.error (.dana (.ResultComputationError ("boom") ("pre") ("none")))
    else Except.ok ("r")
  saveDANAResult := fun _ _ _ => Except.ok ()

/-- The same implementation as `FA` except that the item's current epoch is
9 rather than 7.  All canonical error-context data (item name, item, failing
error object, phase) coincide with `FA`'s. -/
def FB : DANAFramework Nat Nat String String where
  getDataItems := Except.ok [0]
  isProcessed := fun _ => Except.ok false
  isValid := fun _ => Except.ok true
  getItemName := fun _ => Except.ok ("item0")
  getCurrentEpoch := fun _ => Except.ok 9
  preProcessDataItem := fun _ _ _ => Except.ok ("pre")
  getCalibrationConfigurations := fun _ _ _ => Except.ok [10, 20]
  computeDANAResult := fun _ _ _ c _ =>
    if c = 10 then Except.error (.dana (.ResultComputationError ("boom") ("pre") ("none")))
    else Except.ok ("r")
  saveDANAResult := fun _ _ _ => Except.ok ()

/-- A concrete single-item implementation whose save step fails with a
classified `ResultSavingError` after a fully successful computation. -/
def FSave : DANAFramework Nat Nat String String where
  getDataItems := Except.ok [0]
  isProcessed := fun _ => Except.ok false
  isValid := fun _ => Except.ok true
  getItemName := fun _ => Except.ok ("itemS")
  getCurrentEpoch := fun _ => Except.ok 2
  preProcessDataItem := fun _ _ _ => Except.ok ("pp")
  getCalibrationConfigurations := fun _ _ _ => Except.ok [5]
  computeDANAResult := fun _ _ _ _ _ => Except.ok ("res")
  saveDANAResult := fun _ _ _ => Except.error (.dana (.ResultSavingError ("diskfull")))

/-- A concrete two-item implementation where every item is already marked
processed, and whose pipeline succeeds on every item when it is entered. -/
def FProc : DANAFramework Nat Nat String String where
  getDataItems := Except.ok [0, 1]
  isProcessed := fun _ => Except.ok true
  isValid := fun _ => Except.ok true
  getItemName := fun _ => Except.ok ("n")
  getCurrentEpoch := fun _ => Except.ok 0
  preProcessDataItem := fun _ _ _ => Except.ok ("p")
  getCalibrationConfigurations := fun _ _ _ => Except.ok []
  computeDANAResult := fun _ _ _ _ _ => Except.ok ("r")
  saveDANAResult := fun _ _ _ => Except.ok ()

/-- A concrete single-item implementation whose item fails validation. -/
def FVal : DANAFramework Nat Nat String String where
  getDataItems := Except.ok [0]
  isProcessed := fun _ => Except.ok false
  isValid := fun _ => Except.ok false
  getItemName := fun _ => Except.ok ("v")
  getCurrentEpoch := fun _ => Except.ok 0
  preProcessDataItem := fun _ _ _ => Except.ok ("p")
  getCalibrationConfigurations := fun _ _ _ => Except.ok []
  computeDANAResult := fun _ _ _ _ _ => Except.ok ("r")
  saveDANAResult := fun _ _ _ => Except.ok ()

/-- A concrete implementation whose repository fetch itself raises an
unclassified exception. -/
def FFetch : DANAFramework Nat Nat String String where
  getDataItems := Except.error (.other ("DB down"))
  isProcessed := fun _ => Except.ok false
  isValid := fun _ => Except.ok true
  getItemName := fun _ => Except.ok ("f")
  getCurrentEpoch := fun _ => Except.ok 0
  preProcessDataItem := fun _ _ _ => Except.ok ("p")
  getCalibrationConfigurations := fun _ _ _ => Except.ok []
  computeDANAResult := fun _ _ _ _ _ => Except.ok ("r")
  saveDANAResult := fun _ _ _ => Except.ok ()

/-- A concrete two-item implementation where the first item's validation
raises an unclassified exception, which must escape the per-item loop. -/
def FOther : DANAFramework Nat Nat String String where
  getDataItems := Except.ok [0, 1]
  isProcessed := fun _ => Except.ok false
  isValid := fun _ => Except.error (.other ("TypeError: boom"))
  getItemName := fun _ => Except.ok ("o")
  getCurrentEpoch := fun _ => Except.ok 0
  preProcessDataItem := fun _ _ _ => Except.ok ("p")
  getCalibrationConfigurations := fun _ _ _ => Except.ok []
  computeDANAResult := fun _ _ _ _ _ => Except.ok ("r")
  saveDANAResult := fun _ _ _ => Except.ok ()

/-- A concrete two-item implementation where item 0 runs the whole pipeline
successfully (binding the cycle's locals to its name and epoch) and item 1's
validation raises a classified `CalibrationError`. -/
def F10 : DANAFramework Nat Nat String String where
  getDataItems := Except.ok [0, 1]
  isProcessed := fun _ => Except.ok false
  isValid := fun i =>
    if i = 1 then Except.error (.dana (.CalibrationError ("vboom"))) else Except.ok true
  getItemName := fun _ => Except.ok ("A")
  getCurrentEpoch := fun _ => Except.ok 3
  preProcessDataItem := fun _ _ _ => Except.ok ("pre")
  getCalibrationConfigurations := fun _ _ _ => Except.ok []
  computeDANAResult := fun _ _ _ _ _ => Except.ok ("r")
  saveDANAResult := fun _ _ _ => Except.ok ()

/-- A concrete two-item implementation where already the first item's
validation raises a classified `CalibrationError`, before any binding of
the cycle's locals. -/
def F10b : DANAFramework Nat Nat String String where
  getDataItems := Except.ok [0, 1]
  isProcessed := fun _ => Except.ok false
  isValid := fun _ => Except.error (.dana (.CalibrationError ("vboom")))
  getItemName := fun _ => Except.ok ("A")
  getCurrentEpoch := fun _ => Except.ok 3
  preProcessDataItem := fun _ _ _ => Except.ok ("pre")
  getCalibrationConfigurations := fun _ _ _ => Except.ok []
  computeDANAResult := fun _ _ _ _ _ => Except.ok ("r")
  saveDANAResult := fun _ _ _ => Except.ok ()

section Lemmas

variable {F : DANAFramework It Cfg Pre Res} {force : Bool} {i : It}

/-- The compute fan-out with every configuration succeeding: one `computeCall`
per configuration, in order, and no exception. -/
theorem computeLoop_all_ok {nm : String} {ep : Nat} {pre : Pre} {cfgs : List Cfg}
    (h : ∀ c ∈ cfgs, ∃ r, F.computeDANAResult nm i ep c pre = Except.ok r) :
    computeLoop F nm i ep pre cfgs =
      (cfgs.map (fun c => Event.computeCall nm i ep c pre), none) := by
  induction cfgs with
  | nil => simp [computeLoop]
  | cons c rest ih =>
    obtain ⟨r, hr⟩ := h c (List.mem_cons_self c rest)
    have h2 := ih (fun x hx => h x (List.mem_cons_of_mem c hx))
    simp [computeLoop, hr, h2]

/-- The compute fan-out where the configurations before `ck` succeed and
`ck` raises: the computations before `ck` run, `ck` is attempted, the
configurations after `ck` are not attempted, and the exception propagates. -/
theorem computeLoop_fail {nm : String} {ep : Nat} {pre : Pre} {as : List Cfg} {ck : Cfg}
    {bs : List Cfg} {e : PyError}
    (hok : ∀ c ∈ as, ∃ r, F.computeDANAResult nm i ep c pre = Except.ok r)
    (hf : F.computeDANAResult nm i ep ck pre = Except.error e) :
    computeLoop F nm i ep pre (as ++ ck :: bs) =
      (as.map (fun c => Event.computeCall nm i ep c pre) ++
        [Event.computeCall nm i ep ck pre], some e) := by
  induction as with
  | nil => simp [computeLoop, hf]
  | cons a rest ih =>
    obtain ⟨r, hr⟩ := hok a (List.mem_cons_self a rest)
    have h2 := ih (fun x hx => hok x (List.mem_cons_of_mem a hx))
    simp [computeLoop, hr, h2]

/-- Every event emitted by the compute fan-out is a `computeCall` with the
fixed item context. -/
theorem computeLoop_events_shape {nm : String} {ep : Nat} {pre : Pre} {cfgs : List Cfg} :
    ∀ ev ∈ (computeLoop F nm i ep pre cfgs).1,
      ∃ c, ev = Event.computeCall nm i ep c pre := by
  induction cfgs with
  | nil => simp [computeLoop]
  | cons c rest ih =>
    intro ev hev
    rw [computeLoop] at hev
    rcases hc : F.computeDANAResult nm i ep c pre with e | r
    · rw [hc] at hev
      simp only [List.mem_singleton] at hev
      exact ⟨c, hev⟩
    · rw [hc] at hev
      simp only [List.mem_cons] at hev
      rcases hev with h | h
      · exact ⟨c, h⟩
      · exact ih ev h

/-- If every configuration's computation either succeeds or raises a
classified failure, the fan-out either completes or propagates a classified
failure. -/
theorem computeLoop_classified {nm : String} {ep : Nat} {pre : Pre} {cfgs : List Cfg}
    (h : ∀ c ∈ cfgs, ClassifiedOrOk (F.computeDANAResult nm i ep c pre)) :
    (computeLoop F nm i ep pre cfgs).2 = none ∨
      ∃ e, (computeLoop F nm i ep pre cfgs).2 = some (PyError.dana e) := by
  induction cfgs with
  | nil => left; simp [computeLoop]
  | cons c rest ih =>
    rcases h c (List.mem_cons_self c rest) with ⟨r, hr⟩ | ⟨e, he⟩
    · rcases ih (fun x hx => h x (List.mem_cons_of_mem c hx)) with h2 | ⟨e, h2⟩
      · left; simp [computeLoop, hr, h2]
      · right; exact ⟨e, by simp [computeLoop, hr, h2]⟩
    · right; exact ⟨e, by simp [computeLoop, he]⟩

/-- The skip check of lines 276: with `force` set it short-circuits to
proceed; otherwise it calls `isProcessed`, and proceeds when that returns
false. -/
theorem skipCheck_proceed (hP : force = true ∨ F.isProcessed i = Except.ok false) :
    (if force then ([], Except.ok true) else
      ([Event.isProcessedCall i],
       match F.isProcessed i with
       | .ok b => Except.ok (!b)
       | .error e => Except.error e) :
      List (Event It Cfg Pre) × Except PyError Bool) = (skipEvs force i, Except.ok true) := by
  cases force
  · rcases hP with h | h
    · simp at h
    · simp [skipEvs, h]
  · simp [skipEvs]

/-- An already-processed item under `force = false`: the body performs only
the skip check and raises nothing. -/
theorem runItemBody_skipped (h : F.isProcessed i = Except.ok true) :
    runItemBody F false i =
      ⟨[Event.isProcessedCall i], none, none, none⟩ := by
  simp [runItemBody, h]

/-- `isProcessed` itself raising: the body stops at the skip check and the
exception propagates; neither local is bound. -/
theorem runItemBody_skipErr {e : PyError} (h : F.isProcessed i = Except.error e) :
    runItemBody F false i =
      ⟨[Event.isProcessedCall i], none, none, some e⟩ := by
  simp [runItemBody, h]

/-- An invalid item: the body stops after the validation call, raising
nothing and binding neither local. -/
theorem runItemBody_invalid (hP : force = true ∨ F.isProcessed i = Except.ok false)
    (hv : F.isValid i = Except.ok false) :
    runItemBody F force i =
      ⟨skipEvs force i ++ [Event.isValidCall i], none, none, none⟩ := by
  rw [runItemBody, skipCheck_proceed hP]
  simp [hv]

/-- `isValid` itself raising: the body stops at validation with neither
local bound. -/
theorem runItemBody_validErr {e : PyError} (hP : force = true ∨ F.isProcessed i = Except.ok false)
    (hv : F.isValid i = Except.error e) :
    runItemBody F force i =
      ⟨skipEvs force i ++ [Event.isValidCall i], none, none, some e⟩ := by
  rw [runItemBody, skipCheck_proceed hP]
  simp [hv]

/-- `getItemName` raising: the body stops at naming with neither local
bound. -/
theorem runItemBody_nameErr {e : PyError} (hP : force = true ∨ F.isProcessed i = Except.ok false)
    (hv : F.isValid i = Except.ok true) (hn : F.getItemName i = Except.error e) :
    runItemBody F force i =
      ⟨skipEvs force i ++ [Event.isValidCall i, Event.getItemNameCall i], none, none, some e⟩ := by
  rw [runItemBody, skipCheck_proceed hP]
  simp [hv, hn]

/-- `getCurrentEpoch` raising: `itemname` was bound at line 285 but `epoch`
was not. -/
theorem runItemBody_epochErr {e : PyError} {nm : String}
    (hP : force = true ∨ F.isProcessed i = Except.ok false)
    (hv : F.isValid i = Except.ok true) (hn : F.getItemName i = Except.ok nm)
    (he : F.getCurrentEpoch i = Except.error e) :
    runItemBody F force i =
      ⟨skipEvs force i ++ [Event.isValidCall i, Event.getItemNameCall i,
         Event.getCurrentEpochCall i], some nm, none, some e⟩ := by
  rw [runItemBody, skipCheck_proceed hP]
  simp [hv, hn, he]

/-- `preProcessDataItem` raising, with both locals bound. -/
theorem runItemBody_preErr {e : PyError} {nm : String} {ep : Nat}
    (hP : force = true ∨ F.isProcessed i = Except.ok false)
    (hv : F.isValid i = Except.ok true) (hn : F.getItemName i = Except.ok nm)
    (he : F.getCurrentEpoch i = Except.ok ep)
    (hpre : F.preProcessDataItem nm i ep = Except.error e) :
    runItemBody F force i =
      ⟨skipEvs force i ++ [Event.isValidCall i, Event.getItemNameCall i,
         Event.getCurrentEpochCall i, Event.preProcessCall nm i ep], some nm, some ep,
       some e⟩ := by
  rw [runItemBody, skipCheck_proceed hP]
  simp [hv, hn, he, hpre]

/-- `getCalibrationConfigurations` raising, with both locals bound. -/
theorem runItemBody_cfgErr {e : PyError} {nm : String} {ep : Nat} {pre : Pre}
    (hP : force = true ∨ F.isProcessed i = Except.ok false)
    (hv : F.isValid i = Except.ok true) (hn : F.getItemName i = Except.ok nm)
    (he : F.getCurrentEpoch i = Except.ok ep)
    (hpre : F.preProcessDataItem nm i ep = Except.ok pre)
    (hcfg : F.getCalibrationConfigurations nm i pre = Except.error e) :
    runItemBody F force i =
      ⟨skipEvs force i ++ [Event.isValidCall i, Event.getItemNameCall i,
         Event.getCurrentEpochCall i, Event.preProcessCall nm i ep,
         Event.getConfigsCall nm i pre], some nm, some ep, some e⟩ := by
  rw [runItemBody, skipCheck_proceed hP]
  simp [hv, hn, he, hpre, hcfg]

/-- A configuration's computation raising: the fan-out stops there, the
exception propagates, and in particular `saveDANAResult` is never invoked
for the item. -/
theorem runItemBody_computeFail {e : PyError} {nm : String} {ep : Nat} {pre : Pre}
    {cfgs : List Cfg} {cevs : List (Event It Cfg Pre)}
    (hP : force = true ∨ F.isProcessed i = Except.ok false)
    (hv : F.isValid i = Except.ok true) (hn : F.getItemName i = Except.ok nm)
    (he : F.getCurrentEpoch i = Except.ok ep)
    (hpre : F.preProcessDataItem nm i ep = Except.ok pre)
    (hcfg : F.getCalibrationConfigurations nm i pre = Except.ok cfgs)
    (hcl : computeLoop F nm i ep pre cfgs = (cevs, some e)) :
    runItemBody F force i =
      ⟨skipEvs force i ++ [Event.isValidCall i, Event.getItemNameCall i,
         Event.getCurrentEpochCall i, Event.preProcessCall nm i ep,
         Event.getConfigsCall nm i pre] ++ cevs, some nm, some ep, some e⟩ := by
  rw [runItemBody, skipCheck_proceed hP]
  simp [hv, hn, he, hpre, hcfg, hcl]

/-- Every computation succeeding but the save raising. -/
theorem runItemBody_saveErr {e : PyError} {nm : String} {ep : Nat} {pre : Pre}
    {cfgs : List Cfg} {cevs : List (Event It Cfg Pre)}
    (hP : force = true ∨ F.isProcessed i = Except.ok false)
    (hv : F.isValid i = Except.ok true) (hn : F.getItemName i = Except.ok nm)
    (he : F.getCurrentEpoch i = Except.ok ep)
    (hpre : F.preProcessDataItem nm i ep = Except.ok pre)
    (hcfg : F.getCalibrationConfigurations nm i pre = Except.ok cfgs)
    (hcl : computeLoop F nm i ep pre cfgs = (cevs, none))
    (hs : F.saveDANAResult nm i ep = Except.error e) :
    runItemBody F force i =
      ⟨skipEvs force i ++ [Event.isValidCall i, Event.getItemNameCall i,
         Event.getCurrentEpochCall i, Event.preProcessCall nm i ep,
         Event.getConfigsCall nm i pre] ++ cevs ++ [Event.saveCall nm i ep],
       some nm, some ep, some e⟩ := by
  rw [runItemBody, skipCheck_proceed hP]
  simp [hv, hn, he, hpre, hcfg, hcl, hs]

/-- The fully successful path through the body. -/
theorem runItemBody_ok {nm : String} {ep : Nat} {pre : Pre}
    {cfgs : List Cfg} {cevs : List (Event It Cfg Pre)}
    (hP : force = true ∨ F.isProcessed i = Except.ok false)
    (hv : F.isValid i = Except.ok true) (hn : F.getItemName i = Except.ok nm)
    (he : F.getCurrentEpoch i = Except.ok ep)
    (hpre : F.preProcessDataItem nm i ep = Except.ok pre)
    (hcfg : F.getCalibrationConfigurations nm i pre = Except.ok cfgs)
    (hcl : computeLoop F nm i ep pre cfgs = (cevs, none))
    (hs : F.saveDANAResult nm i ep = Except.ok ()) :
    runItemBody F force i =
      ⟨skipEvs force i ++ [Event.isValidCall i, Event.getItemNameCall i,
         Event.getCurrentEpochCall i, Event.preProcessCall nm i ep,
         Event.getConfigsCall nm i pre] ++ cevs ++ [Event.saveCall nm i ep],
       some nm, some ep, none⟩ := by
  rw [runItemBody, skipCheck_proceed hP]
  simp [hv, hn, he, hpre, hcfg, hcl, hs]

/-- An iteration whose body raised nothing leaves the handler untouched:
the events are the body's, the locals are the body's bindings falling back
to the incoming values. -/
theorem processItem_no_raise {nm0 : Option String} {ep0 : Option Nat}
    (h : (runItemBody F force i).raised = none) :
    processItem F force nm0 ep0 i =
      ⟨(runItemBody F force i).events, (runItemBody F force i).itemname <|> nm0,
       (runItemBody F force i).epoch <|> ep0, none⟩ := by
  simp [processItem, h]

/-- The handler of lines 315 to 317 on a classified failure with both
locals available: `onError` is invoked with the five positional arguments
`(itemname, dataItem, epoch, err, err.phase)` and the iteration completes
without escaping. -/
theorem processItem_handler {nm0 : Option String} {ep0 : Option Nat} {err : DANAException}
    {n : String} {p : Nat}
    (hr : (runItemBody F force i).raised = some (PyError.dana err))
    (hn : ((runItemBody F force i).itemname <|> nm0) = some n)
    (hp : ((runItemBody F force i).epoch <|> ep0) = some p) :
    processItem F force nm0 ep0 i =
      ⟨(runItemBody F force i).events ++ [Event.onErrorCall n i p err err.phase],
       some n, some p, none⟩ := by
  simp [processItem, hr, hn, hp]

/-- The handler on a classified failure when `itemname` has never been
assigned in this cycle: evaluating the argument list of the `onError` call
raises `UnboundLocalError`, which escapes the iteration; `onError` is not
invoked. -/
theorem processItem_unbound_name {nm0 : Option String} {ep0 : Option Nat} {err : DANAException}
    (hr : (runItemBody F force i).raised = some (PyError.dana err))
    (hn : ((runItemBody F force i).itemname <|> nm0) = none) :
    processItem F force nm0 ep0 i =
      ⟨(runItemBody F force i).events, none, (runItemBody F force i).epoch <|> ep0,
       some (unboundLocal "itemname")⟩ := by
  simp [processItem, hr, hn]

/-- The handler on a classified failure when `itemname` is available but
`epoch` has never been assigned: the `epoch` reference in the argument list
raises `UnboundLocalError`, which escapes; `onError` is not invoked. -/
theorem processItem_unbound_epoch {nm0 : Option String} {ep0 : Option Nat} {err : DANAException}
    {n : String}
    (hr : (runItemBody F force i).raised = some (PyError.dana err))
    (hn : ((runItemBody F force i).itemname <|> nm0) = some n)
    (hp : ((runItemBody F force i).epoch <|> ep0) = none) :
    processItem F force nm0 ep0 i =
      ⟨(runItemBody F force i).events, some n, none, some (unboundLocal "epoch")⟩ := by
  simp [processItem, hr, hn, hp]

/-- An unclassified failure is not caught by `except DANAException` and
escapes the iteration untouched. -/
theorem processItem_unclassified {nm0 : Option String} {ep0 : Option Nat} {msg : String}
    (hr : (runItemBody F force i).raised = some (PyError.other msg)) :
    processItem F force nm0 ep0 i =
      ⟨(runItemBody F force i).events, (runItemBody F force i).itemname <|> nm0,
       (runItemBody F force i).epoch <|> ep0, some (PyError.other msg)⟩ := by
  simp [processItem, hr]

/-- The per-item loop on an empty suffix: the locals persist. -/
theorem danaLoop_nil {nm0 : Option String} {ep0 : Option Nat} :
    danaLoop F force nm0 ep0 ([] : List It) = ⟨[], nm0, ep0, none⟩ := rfl

/-- The per-item loop steps past an iteration that did not escape,
threading the updated locals. -/
theorem danaLoop_cons_ok {nm0 : Option String} {ep0 : Option Nat} {rest : List It}
    (h : (processItem F force nm0 ep0 i).raised = none) :
    danaLoop F force nm0 ep0 (i :: rest) =
      ⟨(processItem F force nm0 ep0 i).events ++
         (danaLoop F force (processItem F force nm0 ep0 i).itemname
           (processItem F force nm0 ep0 i).epoch rest).events,
       (danaLoop F force (processItem F force nm0 ep0 i).itemname
         (processItem F force nm0 ep0 i).epoch rest).itemname,
       (danaLoop F force (processItem F force nm0 ep0 i).itemname
         (processItem F force nm0 ep0 i).epoch rest).epoch,
       (danaLoop F force (processItem F force nm0 ep0 i).itemname
         (processItem F force nm0 ep0 i).epoch rest).raised⟩ := by
  simp [danaLoop, h]

/-- An iteration that escapes aborts the loop: later items are not
visited. -/
theorem danaLoop_cons_raise {nm0 : Option String} {ep0 : Option Nat} {rest : List It}
    {e : PyError}
    (h : (processItem F force nm0 ep0 i).raised = some e) :
    danaLoop F force nm0 ep0 (i :: rest) = processItem F force nm0 ep0 i := by
  simp [danaLoop, h]

/-- Splitting the per-item loop around a prefix that did not escape. -/
theorem danaLoop_append {nm0 : Option String} {ep0 : Option Nat} {xs ys : List It}
    (h : (danaLoop F force nm0 ep0 xs).raised = none) :
    danaLoop F force nm0 ep0 (xs ++ ys) =
      ⟨(danaLoop F force nm0 ep0 xs).events ++
         (danaLoop F force (danaLoop F force nm0 ep0 xs).itemname
           (danaLoop F force nm0 ep0 xs).epoch ys).events,
       (danaLoop F force (danaLoop F force nm0 ep0 xs).itemname
         (danaLoop F force nm0 ep0 xs).epoch ys).itemname,
       (danaLoop F force (danaLoop F force nm0 ep0 xs).itemname
         (danaLoop F force nm0 ep0 xs).epoch ys).epoch,
       (danaLoop F force (danaLoop F force nm0 ep0 xs).itemname
         (danaLoop F force nm0 ep0 xs).epoch ys).raised⟩ := by
  induction xs generalizing nm0 ep0 with
  | nil => simp [danaLoop]
  | cons a rest ih =>
    cases hx : (processItem F force nm0 ep0 a).raised with
    | some e => rw [danaLoop_cons_raise hx] at h; rw [hx] at h; cases h
    | none =>
      rw [danaLoop_cons_ok hx] at h
      have h2 := ih h
      rw [List.cons_append, danaLoop_cons_ok hx, danaLoop_cons_ok hx, h2]
      simp

/-- A failing fetch: `danaJob` returns Failed with the rendered exception
and no per-item step was invoked. -/
theorem danaJob_fetch_err {e : PyError} (h : F.getDataItems = Except.error e) :
    danaJob F force = ((ExitCode.Failed, excInfoStr e), [Event.getDataItemsCall]) := by
  simp [danaJob, h]

/-- A cycle whose per-item loop never escaped returns Success with the empty
message. -/
theorem danaJob_of_loop_ok {items : List It}
    (h : F.getDataItems = Except.ok items)
    (h2 : (danaLoop F force none none items).raised = none) :
    danaJob F force =
      ((ExitCode.Success, ""),
       Event.getDataItemsCall :: (danaLoop F force none none items).events) := by
  simp [danaJob, h, h2]

/-- A cycle whose per-item loop escaped with an exception returns Failed
with the rendered exception. -/
theorem danaJob_of_loop_raise {items : List It} {e : PyError}
    (h : F.getDataItems = Except.ok items)
    (h2 : (danaLoop F force none none items).raised = some e) :
    danaJob F force =
      ((ExitCode.Failed, excInfoStr e),
       Event.getDataItemsCall :: (danaLoop F force none none items).events) := by
  simp [danaJob, h, h2]

/-- An event that is not an `onError` invocation carries no `onError`
payload. -/
theorem onErrorErrPhase_eq_none {ev : Event It Cfg Pre} (h : ev.isOnError = false) :
    ev.onErrorErrPhase = none := by
  cases ev <;> simp_all [Event.isOnError, Event.onErrorErrPhase]

/-- A list of events none of which is an `onError` invocation yields no
`onError` payloads. -/
theorem filterMap_onError_nil {evs : List (Event It Cfg Pre)}
    (h : ∀ ev ∈ evs, ev.isOnError = false) :
    evs.filterMap Event.onErrorErrPhase = [] := by
  induction evs with
  | nil => rfl
  | cons a rest ih =>
    rw [List.filterMap_cons, onErrorErrPhase_eq_none (h a (List.mem_cons_self a rest))]
    exact ih (fun ev hev => h ev (List.mem_cons_of_mem a hev))

/-- Once the skip check proceeds, the body's trace is the skip events
followed by the validation call and then only naming, epoch, pre-processing,
configuration, computation and save calls: never an `onError` invocation and
never another skip check. -/
theorem runItemBody_proceed_shape (hP : force = true ∨ F.isProcessed i = Except.ok false) :
    ∃ tail, (runItemBody F force i).events = skipEvs force i ++ Event.isValidCall i :: tail ∧
      ∀ ev ∈ tail, ev.isOnError = false ∧ ev.isSkipCheck = false := by
  rcases hv : F.isValid i with e | v
  · rw [runItemBody_validErr hP hv]
    exact ⟨[], by simp, by simp⟩
  · cases v with
    | false =>
      rw [runItemBody_invalid hP hv]
      exact ⟨[], by simp, by simp⟩
    | true =>
      rcases hn : F.getItemName i with e | nm
      · rw [runItemBody_nameErr hP hv hn]
        refine ⟨[Event.getItemNameCall i], by simp, ?_⟩
        intro ev hev
        fin_cases hev
        exact ⟨rfl, rfl⟩
      · rcases he : F.getCurrentEpoch i with e | ep
        · rw [runItemBody_epochErr hP hv hn he]
          refine ⟨[Event.getItemNameCall i, Event.getCurrentEpochCall i], by simp, ?_⟩
          intro ev hev
          fin_cases hev <;> exact ⟨rfl, rfl⟩
        · rcases hpre : F.preProcessDataItem nm i ep with e | pre
          · rw [runItemBody_preErr hP hv hn he hpre]
            refine ⟨[Event.getItemNameCall i, Event.getCurrentEpochCall i,
              Event.preProcessCall nm i ep], by simp, ?_⟩
            intro ev hev
            fin_cases hev <;> exact ⟨rfl, rfl⟩
          · rcases hcfg : F.getCalibrationConfigurations nm i pre with e | cfgs
            · rw [runItemBody_cfgErr hP hv hn he hpre hcfg]
              refine ⟨[Event.getItemNameCall i, Event.getCurrentEpochCall i,
                Event.preProcessCall nm i ep, Event.getConfigsCall nm i pre], by simp, ?_⟩
              intro ev hev
              fin_cases hev <;> exact ⟨rfl, rfl⟩
            · have hcevs : ∀ ev ∈ (computeLoop F nm i ep pre cfgs).1,
                  ev.isOnError = false ∧ ev.isSkipCheck = false := by
                intro ev hev
                obtain ⟨c, rfl⟩ := computeLoop_events_shape ev hev
                exact ⟨rfl, rfl⟩
              rcases hcl : computeLoop F nm i ep pre cfgs with ⟨cevs, r2⟩
              have hcevs2 : ∀ ev ∈ cevs, ev.isOnError = false ∧ ev.isSkipCheck = false := by
                intro ev hev
                exact hcevs ev (by rw [hcl]; exact hev)
              cases r2 with
              | some e =>
                rw [runItemBody_computeFail hP hv hn he hpre hcfg hcl]
                refine ⟨[Event.getItemNameCall i, Event.getCurrentEpochCall i,
                  Event.preProcessCall nm i ep, Event.getConfigsCall nm i pre] ++ cevs,
                  by simp, ?_⟩
                intro ev hev
                rcases List.mem_append.1 hev with hev | hev
                · fin_cases hev <;> exact ⟨rfl, rfl⟩
                · exact hcevs2 ev hev
              | none =>
                have hsave : ∀ (tl : List (Event It Cfg Pre)),
                    (runItemBody F force i).events =
                      skipEvs force i ++ [Event.isValidCall i, Event.getItemNameCall i,
                        Event.getCurrentEpochCall i, Event.preProcessCall nm i ep,
                        Event.getConfigsCall nm i pre] ++ cevs ++ [Event.saveCall nm i ep] →
                    tl = [Event.getItemNameCall i, Event.getCurrentEpochCall i,
                        Event.preProcessCall nm i ep, Event.getConfigsCall nm i pre] ++ cevs ++
                        [Event.saveCall nm i ep] →
                    ∃ tail, (runItemBody F force i).events =
                        skipEvs force i ++ Event.isValidCall i :: tail ∧
                      ∀ ev ∈ tail, ev.isOnError = false ∧ ev.isSkipCheck = false := by
                  intro tl hrw htl
                  refine ⟨tl, by rw [hrw, htl]; simp, ?_⟩
                  intro ev hev
                  rw [htl] at hev
                  rcases List.mem_append.1 hev with hev | hev
                  · rcases List.mem_append.1 hev with hev | hev
                    · fin_cases hev <;> exact ⟨rfl, rfl⟩
                    · exact hcevs2 ev hev
                  · simp only [List.mem_singleton] at hev
                    subst hev
                    exact ⟨rfl, rfl⟩
                rcases hs : F.saveDANAResult nm i ep with e | u
                · exact hsave _ (by rw [runItemBody_saveErr hP hv hn he hpre hcfg hcl hs]) rfl
                · cases u
                  exact hsave _ (by rw [runItemBody_ok hP hv hn he hpre hcfg hcl hs]) rfl

/-- No event emitted by the body of an iteration is an `onError`
invocation: the handler, not the body, performs the routing. -/
theorem runItemBody_no_onError :
    ∀ ev ∈ (runItemBody F force i).events, ev.isOnError = false := by
  have hskip : ∀ ev ∈ (skipEvs force i : List (Event It Cfg Pre)), ev.isOnError = false := by
    intro ev hev
    cases force <;> simp [skipEvs] at hev
    subst hev
    rfl
  cases force with
  | false =>
    rcases hp : F.isProcessed i with e | b
    · rw [runItemBody_skipErr hp]
      intro ev hev
      simp only [List.mem_singleton] at hev
      subst hev
      rfl
    · cases b with
      | true =>
        rw [runItemBody_skipped hp]
        intro ev hev
        simp only [List.mem_singleton] at hev
        subst hev
        rfl
      | false =>
        obtain ⟨tail, hevs, htail⟩ := runItemBody_proceed_shape (Or.inr hp)
        rw [hevs]
        intro ev hev
        rcases List.mem_append.1 hev with hev | hev
        · exact hskip ev hev
        · rcases List.mem_cons.1 hev with rfl | hev
          · rfl
          · exact (htail ev hev).1
  | true =>
    obtain ⟨tail, hevs, htail⟩ := runItemBody_proceed_shape (Or.inl rfl)
    rw [hevs]
    intro ev hev
    rcases List.mem_append.1 hev with hev | hev
    · exact hskip ev hev
    · rcases List.mem_cons.1 hev with rfl | hev
      · rfl
      · exact (htail ev hev).1

/-- Every `onError` invocation emitted by an iteration passes as its phase
argument the `phase` attribute of the very error object it passes as its
error argument (line 316 evaluates `err.phase`). -/
theorem processItem_onError_phase {nm0 : Option String} {ep0 : Option Nat}
    {n : String} {j : It} {p : Nat} {e : DANAException} {ph : String}
    (hev : Event.onErrorCall n j p e ph ∈ (processItem F force nm0 ep0 i).events) :
    ph = e.phase := by
  have hbody : ∀ {n2 : String} {j2 : It} {p2 : Nat} {e2 : DANAException} {ph2 : String},
      Event.onErrorCall n2 j2 p2 e2 ph2 ∈ (runItemBody F force i).events → False := by
    intro n2 j2 p2 e2 ph2 h
    have := runItemBody_no_onError _ h
    simp [Event.isOnError] at this
  cases hr : (runItemBody F force i).raised with
  | none =>
    rw [processItem_no_raise hr] at hev
    exact absurd hev (fun h => hbody h)
  | some pe =>
    cases pe with
    | dana err =>
      cases hn : ((runItemBody F force i).itemname <|> nm0) with
      | none =>
        rw [processItem_unbound_name hr hn] at hev
        exact absurd hev (fun h => hbody h)
      | some n2 =>
        cases hp : ((runItemBody F force i).epoch <|> ep0) with
        | none =>
          rw [processItem_unbound_epoch hr hn hp] at hev
          exact absurd hev (fun h => hbody h)
        | some p2 =>
          rw [processItem_handler hr hn hp] at hev
          rcases List.mem_append.1 hev with h | h
          · exact absurd h (fun h2 => hbody h2)
          · simp only [List.mem_singleton] at h
            injection h with h1 h2 h3 h4 h5
            subst h4
            exact h5
    | other msg =>
      rw [processItem_unclassified hr] at hev
      exact absurd hev (fun h => hbody h)

/-- An event that is not an `onError` invocation carries no full `onError`
argument tuple. -/
theorem onErrorData_eq_none {ev : Event It Cfg Pre} (h : ev.isOnError = false) :
    ev.onErrorData = none := by
  cases ev <;> simp_all [Event.isOnError, Event.onErrorData]

/-- A list of events none of which is an `onError` invocation yields no
`onError` argument tuples. -/
theorem filterMap_onErrorData_nil {evs : List (Event It Cfg Pre)}
    (h : ∀ ev ∈ evs, ev.isOnError = false) :
    evs.filterMap Event.onErrorData = [] := by
  induction evs with
  | nil => rfl
  | cons a rest ih =>
    rw [List.filterMap_cons, onErrorData_eq_none (h a (List.mem_cons_self a rest))]
    exact ih (fun ev hev => h ev (List.mem_cons_of_mem a hev))

/-- Phase fidelity through the whole per-item loop. -/
theorem danaLoop_onError_phase {items : List It} :
    ∀ {nm0 : Option String} {ep0 : Option Nat} {n : String} {j : It} {p : Nat}
      {e : DANAException} {ph : String},
      Event.onErrorCall n j p e ph ∈ (danaLoop F force nm0 ep0 items).events →
      ph = e.phase := by
  induction items with
  | nil =>
    intro nm0 ep0 n j p e ph hev
    rw [danaLoop_nil] at hev
    cases hev
  | cons a rest ih =>
    intro nm0 ep0 n j p e ph hev
    cases hx : (processItem F force nm0 ep0 a).raised with
    | some pe =>
      rw [danaLoop_cons_raise hx] at hev
      exact processItem_onError_phase hev
    | none =>
      rw [danaLoop_cons_ok hx] at hev
      rcases List.mem_append.1 hev with h | h
      · exact processItem_onError_phase h
      · exact ih h

/-- Phase fidelity for the whole cycle: every `onError` invocation in a
`danaJob` trace carries exactly the phase its error object was created
with. -/
theorem danaJob_onError_phase {n : String} {j : It} {p : Nat} {e : DANAException}
    {ph : String}
    (hev : Event.onErrorCall n j p e ph ∈ (danaJob F force).2) :
    ph = e.phase := by
  rcases hf : F.getDataItems with pe | items
  · rw [danaJob_fetch_err hf] at hev
    simp at hev
  · cases hr : (danaLoop F force none none items).raised with
    | some pe =>
      rw [danaJob_of_loop_raise hf hr] at hev
      simp only [List.mem_cons] at hev
      rcases hev with h | h
      · cases h
      · exact danaLoop_onError_phase h
    | none =>
      rw [danaJob_of_loop_ok hf hr] at hev
      simp only [List.mem_cons] at hev
      rcases hev with h | h
      · cases h
      · exact danaLoop_onError_phase h

/-- When the skip check, validation, naming and epoch fetch of an item do
not raise and each later step either succeeds or raises a classified
failure, the body either completes or raises a classified failure at a
point where both locals are bound to this item's name and epoch. -/
theorem runItemBody_classified_bound
    (hb : ∃ b, F.isProcessed i = Except.ok b)
    (hvv : ∃ v, F.isValid i = Except.ok v)
    (hnn : ∃ n, F.getItemName i = Except.ok n)
    (hee : ∃ p, F.getCurrentEpoch i = Except.ok p)
    (hpre : ∀ nm ep, ClassifiedOrOk (F.preProcessDataItem nm i ep))
    (hcfg : ∀ nm pre, ClassifiedOrOk (F.getCalibrationConfigurations nm i pre))
    (hcmp : ∀ nm ep c pre, ClassifiedOrOk (F.computeDANAResult nm i ep c pre))
    (hsv : ∀ nm ep, ClassifiedOrOk (F.saveDANAResult nm i ep)) :
    (runItemBody F force i).raised = none ∨
      ∃ e, (runItemBody F force i).raised = some (PyError.dana e) ∧
        (runItemBody F force i).itemname.isSome ∧ (runItemBody F force i).epoch.isSome := by
  obtain ⟨b, hb⟩ := hb
  have hMain : (force = true ∨ F.isProcessed i = Except.ok false) →
      (runItemBody F force i).raised = none ∨
        ∃ e, (runItemBody F force i).raised = some (PyError.dana e) ∧
          (runItemBody F force i).itemname.isSome ∧ (runItemBody F force i).epoch.isSome := by
    intro hP
    obtain ⟨v, hv⟩ := hvv
    cases v with
    | false => left; rw [runItemBody_invalid hP hv]
    | true =>
      obtain ⟨nm, hn⟩ := hnn
      obtain ⟨ep, hep⟩ := hee
      rcases hpre nm ep with ⟨pre, hpk⟩ | ⟨e, hpe⟩
      · rcases hcfg nm pre with ⟨cfgs, hck⟩ | ⟨e, hce⟩
        · rcases computeLoop_classified (fun c _ => hcmp nm ep c pre) with hnone | ⟨e, hsome⟩
          · have hcl : computeLoop F nm i ep pre cfgs =
                ((computeLoop F nm i ep pre cfgs).1, none) := by
              rw [← hnone]
            rcases hsv nm ep with ⟨u, hsk⟩ | ⟨e, hse⟩
            · cases u
              left
              rw [runItemBody_ok hP hv hn hep hpk hck hcl hsk]
            · right
              refine ⟨e, ?_⟩
              rw [runItemBody_saveErr hP hv hn hep hpk hck hcl hse]
              exact ⟨rfl, rfl, rfl⟩
          · have hcl : computeLoop F nm i ep pre cfgs =
                ((computeLoop F nm i ep pre cfgs).1, some (PyError.dana e)) := by
              rw [← hsome]
            right
            refine ⟨e, ?_⟩
            rw [runItemBody_computeFail hP hv hn hep hpk hck hcl]
            exact ⟨rfl, rfl, rfl⟩
        · right
          refine ⟨e, ?_⟩
          rw [runItemBody_cfgErr hP hv hn hep hpk hce]
          exact ⟨rfl, rfl, rfl⟩
      · right
        refine ⟨e, ?_⟩
        rw [runItemBody_preErr hP hv hn hep hpe]
        exact ⟨rfl, rfl, rfl⟩
  cases force with
  | true => exact hMain (Or.inl rfl)
  | false =>
    cases b with
    | true => left; rw [runItemBody_skipped hb]
    | false => exact hMain (Or.inr hb)

/-- Under the same assumptions, the iteration never escapes: a classified
failure of a step past the epoch binding is routed to `onError` exactly
once, with the failure's own error object and phase tag, and an untroubled
body routes nothing. -/
theorem processItem_classified {nm0 : Option String} {ep0 : Option Nat}
    (hb : ∃ b, F.isProcessed i = Except.ok b)
    (hvv : ∃ v, F.isValid i = Except.ok v)
    (hnn : ∃ n, F.getItemName i = Except.ok n)
    (hee : ∃ p, F.getCurrentEpoch i = Except.ok p)
    (hpre : ∀ nm ep, ClassifiedOrOk (F.preProcessDataItem nm i ep))
    (hcfg : ∀ nm pre, ClassifiedOrOk (F.getCalibrationConfigurations nm i pre))
    (hcmp : ∀ nm ep c pre, ClassifiedOrOk (F.computeDANAResult nm i ep c pre))
    (hsv : ∀ nm ep, ClassifiedOrOk (F.saveDANAResult nm i ep)) :
    (processItem F force nm0 ep0 i).raised = none ∧
      (processItem F force nm0 ep0 i).events.filterMap Event.onErrorErrPhase =
        (match (runItemBody F force i).raised with
         | some (PyError.dana e) => [(e, e.phase)]
         | _ => []) := by
  rcases runItemBody_classified_bound hb hvv hnn hee hpre hcfg hcmp hsv with
    hnone | ⟨e, hr, hni, hpi⟩
  · rw [processItem_no_raise hnone, hnone]
    exact ⟨rfl, filterMap_onError_nil runItemBody_no_onError⟩
  · obtain ⟨n, hn⟩ := Option.isSome_iff_exists.1 hni
    obtain ⟨p, hp⟩ := Option.isSome_iff_exists.1 hpi
    have hn2 : ((runItemBody F force i).itemname <|> nm0) = some n := by rw [hn]; rfl
    have hp2 : ((runItemBody F force i).epoch <|> ep0) = some p := by rw [hp]; rfl
    rw [processItem_handler hr hn2 hp2, hr]
    refine ⟨rfl, ?_⟩
    rw [List.filterMap_append, filterMap_onError_nil runItemBody_no_onError]
    rfl

/-- If no iteration escapes (whatever the inherited locals), neither does
the loop. -/
theorem danaLoop_all_no_raise {items : List It}
    (h : ∀ i ∈ items, ∀ nm0 ep0, (processItem F force nm0 ep0 i).raised = none) :
    ∀ nm0 ep0, (danaLoop F force nm0 ep0 items).raised = none := by
  induction items with
  | nil => intro nm0 ep0; rfl
  | cons a rest ih =>
    intro nm0 ep0
    have ha := h a (List.mem_cons_self a rest) nm0 ep0
    rw [danaLoop_cons_ok ha]
    exact ih (fun x hx => h x (List.mem_cons_of_mem a hx)) _ _

/-- Under `force = true` with no iteration raising, the loop never escapes,
every item's validation is invoked, and the skip check is never invoked. -/
theorem danaLoop_true_shape {items : List It}
    (h : ∀ i ∈ items, (runItemBody F true i).raised = none) :
    ∀ nm0 ep0,
      (danaLoop F true nm0 ep0 items).raised = none ∧
      (∀ i ∈ items, Event.isValidCall i ∈ (danaLoop F true nm0 ep0 items).events) ∧
      (∀ ev ∈ (danaLoop F true nm0 ep0 items).events, ev.isSkipCheck = false) := by
  induction items with
  | nil =>
    intro nm0 ep0
    refine ⟨rfl, ?_, ?_⟩ <;> intro x hx <;> cases hx
  | cons a rest ih =>
    intro nm0 ep0
    have hra := h a (List.mem_cons_self a rest)
    have hpa : (processItem F true nm0 ep0 a).raised = none := by
      rw [processItem_no_raise hra]
    obtain ⟨tail, hevs, htail⟩ := runItemBody_proceed_shape (F := F) (i := a) (Or.inl rfl)
    have hbody : (processItem F true nm0 ep0 a).events =
        Event.isValidCall a :: tail := by
      rw [processItem_no_raise hra, hevs]
      simp [skipEvs]
    have ihr := ih (fun x hx => h x (List.mem_cons_of_mem a hx))
      (processItem F true nm0 ep0 a).itemname (processItem F true nm0 ep0 a).epoch
    rw [danaLoop_cons_ok hpa]
    refine ⟨ihr.1, ?_, ?_⟩
    · intro x hx
      rcases List.mem_cons.1 hx with rfl | hx
      · rw [hbody]
        exact List.mem_append_left _ (List.mem_cons_self _ _)
      · exact List.mem_append_right _ (ihr.2.1 x hx)
    · intro ev hev
      rcases List.mem_append.1 hev with hev | hev
      · rw [hbody] at hev
        rcases List.mem_cons.1 hev with rfl | hev
        · rfl
        · exact (htail ev hev).2
      · exact ihr.2.2 ev hev

/-- Under `force = false` with every item already marked processed, the
loop performs exactly one skip check per item, in order, invokes nothing
else, raises nothing and leaves the locals untouched. -/
theorem danaLoop_all_processed {items : List It}
    (h : ∀ i ∈ items, F.isProcessed i = Except.ok true) :
    ∀ nm0 ep0, danaLoop F false nm0 ep0 items =
      ⟨items.map (fun i => Event.isProcessedCall i), nm0, ep0, none⟩ := by
  induction items with
  | nil => intro nm0 ep0; rfl
  | cons a rest ih =>
    intro nm0 ep0
    have hb2 := runItemBody_skipped (F := F) (i := a) (h a (List.mem_cons_self a rest))
    have ha : (processItem F false nm0 ep0 a) =
        ⟨[Event.isProcessedCall a], nm0, ep0, none⟩ := by
      rw [processItem_no_raise (by rw [hb2]), hb2]
      simp
    rw [danaLoop_cons_ok (by rw [ha]), ha,
      ih (fun x hx => h x (List.mem_cons_of_mem a hx))]
    simp

end Lemmas

/-- C1: Per-item failure isolation.  For every item whose pipeline steps
past the skip check, validation, naming and epoch binding either succeed or
fail with a classified phase-tagged error, the cycle catches each failure at
the per-item boundary, invokes `onError` exactly once with that failure's
error object and phase tag, continues to the next item, and the cycle
returns a Success outcome; no classified failure from an item's pipeline
escapes the per-item loop. -/
theorem claim_C1_per_item_isolation (F : DANAFramework It Cfg Pre Res) (force : Bool)
    (items : List It)
    (hfetch : F.getDataItems = Except.ok items)
    (hb : ∀ i ∈ items, ∃ b, F.isProcessed i = Except.ok b)
    (hvv : ∀ i ∈ items, ∃ v, F.isValid i = Except.ok v)
    (hnn : ∀ i ∈ items, ∃ n, F.getItemName i = Except.ok n)
    (hee : ∀ i ∈ items, ∃ p, F.getCurrentEpoch i = Except.ok p)
    (hpre : ∀ i ∈ items, ∀ nm ep, ClassifiedOrOk (F.preProcessDataItem nm i ep))
    (hcfg : ∀ i ∈ items, ∀ nm pre, ClassifiedOrOk (F.getCalibrationConfigurations nm i pre))
    (hcmp : ∀ i ∈ items, ∀ nm ep c pre, ClassifiedOrOk (F.computeDANAResult nm i ep c pre))
    (hsv : ∀ i ∈ items, ∀ nm ep, ClassifiedOrOk (F.saveDANAResult nm i ep)) :
    (danaLoop F force none none items).raised = none ∧
    (danaJob F force).1 = (ExitCode.Success, "") ∧
    ∀ i ∈ items, ∀ nm0 ep0,
      (processItem F force nm0 ep0 i).raised = none ∧
      (processItem F force nm0 ep0 i).events.filterMap Event.onErrorErrPhase =
        (match (runItemBody F force i).raised with
         | some (PyError.dana e) => [(e, e.phase)]
         | _ => []) := by
  have hitem : ∀ i ∈ items, ∀ (nm0 : Option String) (ep0 : Option Nat),
      (processItem F force nm0 ep0 i).raised = none ∧
      (processItem F force nm0 ep0 i).events.filterMap Event.onErrorErrPhase =
        (match (runItemBody F force i).raised with
         | some (PyError.dana e) => [(e, e.phase)]
         | _ => []) :=
    fun i hi nm0 ep0 => processItem_classified (hb i hi) (hvv i hi) (hnn i hi) (hee i hi)
      (hpre i hi) (hcfg i hi) (hcmp i hi) (hsv i hi)
  have hloop := danaLoop_all_no_raise (fun i hi nm0 ep0 => (hitem i hi nm0 ep0).1) none none
  exact ⟨hloop, by rw [danaJob_of_loop_ok hfetch hloop], hitem⟩

/-- Witness for C1 on the concrete implementation `FA`, whose single item's
computation fails with a classified `ResultComputationError`: the cycle
succeeds and the item's iteration routes exactly that failure's error and
phase to `onError`. -/
theorem claim_C1_witness :
    (danaJob FA false).1 = (ExitCode.Success, "") ∧
    (processItem FA false none none 0).events.filterMap Event.onErrorErrPhase =
      [(DANAException.ResultComputationError ("boom") ("pre") ("none"), "COMPU")] := by
  have h := claim_C1_per_item_isolation FA false [0] rfl
    (fun i hi => ⟨false, rfl⟩) (fun i hi => ⟨true, rfl⟩)
    (fun i hi => ⟨"item0", rfl⟩) (fun i hi => ⟨7, rfl⟩)
    (fun i hi nm ep => Or.inl ⟨"pre", rfl⟩)
    (fun i hi nm pre => Or.inl ⟨[10, 20], rfl⟩)
    (fun i hi nm ep c pre => by
      by_cases hc : c = 10
      · exact Or.inr ⟨DANAException.ResultComputationError ("boom") ("pre") ("none"),
          by simp [FA, hc]⟩
      · exact Or.inl ⟨"r", by simp [FA, hc]⟩)
    (fun i hi nm ep => Or.inl ⟨(), rfl⟩)
  refine ⟨h.2.1, ?_⟩
  have h2 := (h.2.2 0 (List.mem_singleton.2 rfl) none none).2
  rw [h2]
  decide

/-- C5: For every item failing validation, no pipeline step beyond
validation is invoked for it, `onError` is not called for it, the iteration
raises nothing, the locals are untouched, and the cycle proceeds directly
to the next item. -/
theorem claim_C5_invalid_skip (F : DANAFramework It Cfg Pre Res) (force : Bool) (i : It)
    (nm0 : Option String) (ep0 : Option Nat) (rest : List It)
    (hP : force = true ∨ F.isProcessed i = Except.ok false)
    (hv : F.isValid i = Except.ok false) :
    processItem F force nm0 ep0 i =
      ⟨skipEvs force i ++ [Event.isValidCall i], nm0, ep0, none⟩ ∧
    ((processItem F force nm0 ep0 i).events.countP Event.isBeyondValidation) = 0 ∧
    danaLoop F force nm0 ep0 (i :: rest) =
      ⟨(skipEvs force i ++ [Event.isValidCall i]) ++ (danaLoop F force nm0 ep0 rest).events,
       (danaLoop F force nm0 ep0 rest).itemname, (danaLoop F force nm0 ep0 rest).epoch,
       (danaLoop F force nm0 ep0 rest).raised⟩ := by
  have hbody := runItemBody_invalid hP hv
  have h1 : processItem F force nm0 ep0 i =
      ⟨skipEvs force i ++ [Event.isValidCall i], nm0, ep0, none⟩ := by
    rw [processItem_no_raise (by rw [hbody]), hbody]
    simp
  refine ⟨h1, ?_, ?_⟩
  · rw [h1]
    cases force <;>
      simp [skipEvs, List.countP_cons, Event.isBeyondValidation]
  · rw [danaLoop_cons_ok (by rw [h1]), h1]

/-- Witness for C5 on `FVal`, whose single item fails validation: only the
skip check and the validation call happen, nothing is routed to `onError`,
and the loop state is unchanged. -/
theorem claim_C5_witness :
    processItem FVal false none none 0 =
      ⟨[Event.isProcessedCall 0, Event.isValidCall 0], none, none, none⟩ ∧
    ((processItem FVal false none none 0).events.countP Event.isBeyondValidation) = 0 := by
  have h := claim_C5_invalid_skip FVal false 0 none none [] (Or.inr rfl) rfl
  refine ⟨?_, h.2.1⟩
  rw [h.1]
  decide

/-- C7: If the single-instance execution guard cannot be acquired, the run
loop performs zero cycles and returns immediately: no cycle, no log, no
sleep, no retry. -/
theorem claim_C7_guard (F : DANAFramework It Cfg Pre Res)
    (lockF : String → String → Bool) (pidfile programname : String)
    (timeinterval : Nat) (force : Bool) (fuel : Nat)
    (h : lockF pidfile programname = false) :
    run F lockF pidfile programname timeinterval force fuel = [] := by
  simp [run, h]

/-- Witness for C7: a refused guard produces no observable run-loop action
at all, for the concrete implementation `FA`. -/
theorem claim_C7_witness :
    run FA (fun _ _ => false) ("pid") ("prog") 60 false 5 = [] :=
  claim_C7_guard FA (fun _ _ => false) ("pid") ("prog") 60 false 5 rfl

/-- Counterexample to C2 as stated.  On `FA` (one item, two resolved
configurations, the first configuration's computation failing with a
classified `ResultComputationError`), the cycle routes the failure to
`onError` once with phase COMPU and does not attempt the second
configuration — but, contrary to the claim, `saveDANAResult` is never
invoked for the item: the exception jumps from the compute fan-out straight
to the per-item handler, skipping line 313. -/
theorem claim_C2_counterexample :
    danaJob FA false =
      ((ExitCode.Success, ""),
       [Event.getDataItemsCall, Event.isProcessedCall 0, Event.isValidCall 0,
        Event.getItemNameCall 0, Event.getCurrentEpochCall 0,
        Event.preProcessCall ("item0") 0 7, Event.getConfigsCall ("item0") 0 ("pre"),
        Event.computeCall ("item0") 0 7 10 ("pre"),
        Event.onErrorCall ("item0") 0 7
          (DANAException.ResultComputationError ("boom") ("pre") ("none")) ("COMPU")]) ∧
    ((danaJob FA false).2.countP Event.isSave) = 0 ∧
    ((danaJob FA false).2.countP Event.isOnError) = 1 := by
  decide

/-- C2 as amended: in the multi-configuration pipeline, when configuration
`ck` of an item's resolved configurations fails with a classified
`ResultComputationError`, the computations before `ck` complete, `ck` is
attempted, the configurations after `ck` are not attempted, `onError` fires
exactly once with phase COMPU, the iteration continues to the next item —
and `saveDANAResult` is NOT invoked for the item (no `saveCall` occurs in
the iteration's trace). -/
theorem claim_C2_amended (F : DANAFramework It Cfg Pre Res) (force : Bool) (i : It)
    (nm : String) (ep : Nat) (pre : Pre) (as : List Cfg) (ck : Cfg) (bs : List Cfg)
    (m pr cr : String) (nm0 : Option String) (ep0 : Option Nat)
    (hP : force = true ∨ F.isProcessed i = Except.ok false)
    (hv : F.isValid i = Except.ok true)
    (hn : F.getItemName i = Except.ok nm)
    (he : F.getCurrentEpoch i = Except.ok ep)
    (hpre : F.preProcessDataItem nm i ep = Except.ok pre)
    (hcfg : F.getCalibrationConfigurations nm i pre = Except.ok (as ++ ck :: bs))
    (hok : ∀ c ∈ as, ∃ r, F.computeDANAResult nm i ep c pre = Except.ok r)
    (hf : F.computeDANAResult nm i ep ck pre =
      Except.error (.dana (.ResultComputationError m pr cr))) :
    processItem F force nm0 ep0 i =
      ⟨skipEvs force i ++ [Event.isValidCall i, Event.getItemNameCall i,
         Event.getCurrentEpochCall i, Event.preProcessCall nm i ep,
         Event.getConfigsCall nm i pre] ++
        (as.map (fun c => Event.computeCall nm i ep c pre) ++
          [Event.computeCall nm i ep ck pre]) ++
        [Event.onErrorCall nm i ep (DANAException.ResultComputationError m pr cr) ("COMPU")],
       some nm, some ep, none⟩ ∧
    ((processItem F force nm0 ep0 i).events.countP Event.isSave) = 0 := by
  have hcl := @computeLoop_fail It Cfg Pre Res F i nm ep pre as ck bs _ hok hf
  have hbody := runItemBody_computeFail hP hv hn he hpre hcfg hcl
  have hr : (runItemBody F force i).raised =
      some (PyError.dana (DANAException.ResultComputationError m pr cr)) := by rw [hbody]
  have hni : ((runItemBody F force i).itemname <|> nm0) = some nm := by rw [hbody]; rfl
  have hpi : ((runItemBody F force i).epoch <|> ep0) = some ep := by rw [hbody]; rfl
  have hmain := processItem_handler hr hni hpi
  rw [hbody] at hmain
  have hz : ∀ (l : List Cfg),
      ((l.map (fun c => Event.computeCall nm i ep c pre)).countP Event.isSave) = 0 := by
    intro l
    refine List.countP_eq_zero.2 ?_
    intro ev hev
    obtain ⟨c, hc, rfl⟩ := List.mem_map.1 hev
    simp [Event.isSave]
  constructor
  · rw [hmain]
    simp [DANAException.phase, List.append_assoc]
  · rw [hmain]
    cases force <;>
      simp [skipEvs, List.countP_append, List.countP_cons, Event.isSave, hz]

/-- Witness for the amended C2 on the concrete implementation `FA`:
`as = []`, `ck = 10`, `bs = [20]`. -/
theorem claim_C2_witness :
    processItem FA false none none 0 =
      ⟨[Event.isProcessedCall 0, Event.isValidCall 0, Event.getItemNameCall 0,
        Event.getCurrentEpochCall 0, Event.preProcessCall ("item0") 0 7,
        Event.getConfigsCall ("item0") 0 ("pre"), Event.computeCall ("item0") 0 7 10 ("pre"),
        Event.onErrorCall ("item0") 0 7
          (DANAException.ResultComputationError ("boom") ("pre") ("none")) ("COMPU")],
       some ("item0"), some 7, none⟩ := by
  have h := claim_C2_amended FA false 0 ("item0") 7 ("pre") [] 10 [20]
    ("boom") ("pre") ("none") none none (Or.inr rfl) rfl rfl rfl rfl rfl
    (fun c hc => absurd hc (List.not_mem_nil c)) rfl
  rw [h.1]
  decide

/-- Counterexample to C3 as stated.  On `FSave` (one item whose save raises
a classified `ResultSavingError`), the orchestrator routes the failure to
`onError` once with phase SAVIN, the cycle outcome is Success, and one full
iteration of the run loop emits no critical-severity diagnostic at all: the
orchestrator itself does not escalate the saving failure, it only logs
critically when a whole cycle fails. -/
theorem claim_C3_counterexample :
    ((danaJob FSave false).2.countP Event.isOnError) = 1 ∧
    Event.onErrorCall ("itemS") 0 2 (DANAException.ResultSavingError ("diskfull")) ("SAVIN") ∈
      (danaJob FSave false).2 ∧
    (danaJob FSave false).1 = (ExitCode.Success, "") ∧
    ((runIteration FSave 60 false).countP RunEvent.isCritical) = 0 := by
  decide

/-- C3 as amended: a save-step failure carrying a classified
`ResultSavingError` is routed to `onError` with phase SAVIN exactly like any
other classified per-item failure; the cycle still reports Success, and the
orchestrator's run loop emits no critical-severity diagnostic for it (its
only critical log fires on a Failed cycle outcome).  The escalation of
saving errors to critical severity is an obligation the contract
documentation places on the `onError` implementor, not a behaviour of the
orchestrator. -/
theorem claim_C3_amended (F : DANAFramework It Cfg Pre Res) (i : It) (timeinterval : Nat)
    (nm : String) (ep : Nat) (pre : Pre) (cfgs : List Cfg) (cause : String)
    (hfetch : F.getDataItems = Except.ok [i])
    (hproc : F.isProcessed i = Except.ok false)
    (hv : F.isValid i = Except.ok true)
    (hn : F.getItemName i = Except.ok nm)
    (he : F.getCurrentEpoch i = Except.ok ep)
    (hpre : F.preProcessDataItem nm i ep = Except.ok pre)
    (hcfg : F.getCalibrationConfigurations nm i pre = Except.ok cfgs)
    (hok : ∀ c ∈ cfgs, ∃ r, F.computeDANAResult nm i ep c pre = Except.ok r)
    (hsave : F.saveDANAResult nm i ep =
      Except.error (.dana (.ResultSavingError cause))) :
    (danaJob F false).1 = (ExitCode.Success, "") ∧
    (danaJob F false).2.filterMap Event.onErrorErrPhase =
      [(DANAException.ResultSavingError cause, "SAVIN")] ∧
    ((runIteration F timeinterval false).countP RunEvent.isCritical) = 0 := by
  have hcl := computeLoop_all_ok hok
  have hbody := @runItemBody_saveErr It Cfg Pre Res F false i _ nm ep pre cfgs _
    (Or.inr hproc) hv hn he hpre hcfg hcl hsave
  have hr : (runItemBody F false i).raised =
      some (PyError.dana (DANAException.ResultSavingError cause)) := by rw [hbody]
  have hni : ((runItemBody F false i).itemname <|> none) = some nm := by rw [hbody]; rfl
  have hpi : ((runItemBody F false i).epoch <|> none) = some ep := by rw [hbody]; rfl
  have hpi2 := processItem_handler hr hni hpi
  have hloopraised : (danaLoop F false none none [i]).raised = none := by
    rw [danaLoop_cons_ok (by rw [hpi2]), hpi2, danaLoop_nil]
  have hjob := danaJob_of_loop_ok hfetch hloopraised
  have hsuc : (danaJob F false).1 = (ExitCode.Success, "") := by rw [hjob]
  refine ⟨hsuc, ?_, ?_⟩
  · rw [hjob, danaLoop_cons_ok (by rw [hpi2]), hpi2, danaLoop_nil]
    simp only [List.append_nil, List.filterMap_cons]
    rw [List.filterMap_append, filterMap_onError_nil runItemBody_no_onError]
    rfl
  · rw [runIteration]
    simp only [Bool.false_eq_true, if_false, hsuc, ne_eq, not_true_eq_false,
      reduceIte]
    simp [RunEvent.isCritical, List.countP_cons, List.countP_append]

/-- Witness for the amended C3 on the concrete implementation `FSave`. -/
theorem claim_C3_witness :
    (danaJob FSave false).1 = (ExitCode.Success, "") ∧
    (danaJob FSave false).2.filterMap Event.onErrorErrPhase =
      [(DANAException.ResultSavingError ("diskfull"), "SAVIN")] ∧
    ((runIteration FSave 60 false).countP RunEvent.isCritical) = 0 :=
  claim_C3_amended FSave 0 60 ("itemS") 2 ("pp") [5] ("diskfull") rfl rfl rfl rfl rfl rfl rfl
    (fun _ _ => ⟨"res", rfl⟩) rfl

/-- C4: A failing `getDataItems` aborts the cycle immediately with outcome
`(Failed, str(sys.exc_info()))` and zero per-item invocations; an
unclassified failure escaping some item's iteration aborts the remainder of
the cycle (the following items are never visited) with a Failed outcome
carrying the rendered cause; and a Failed cycle does not abort the run
loop: with the guard held, the next scheduled iteration still runs after
the current one's sleep. -/
theorem claim_C4_cycle_abort :
    (∀ (F : DANAFramework It Cfg Pre Res) (force : Bool) (e : PyError),
      F.getDataItems = Except.error e →
      danaJob F force = ((ExitCode.Failed, excInfoStr e), [Event.getDataItemsCall])) ∧
    (∀ (F : DANAFramework It Cfg Pre Res) (force : Bool) (xs ys : List It) (i : It)
        (msg : String),
      F.getDataItems = Except.ok (xs ++ i :: ys) →
      (danaLoop F force none none xs).raised = none →
      (processItem F force (danaLoop F force none none xs).itemname
        (danaLoop F force none none xs).epoch i).raised = some (PyError.other msg) →
      danaJob F force =
        ((ExitCode.Failed, excInfoStr (PyError.other msg)),
         Event.getDataItemsCall :: ((danaLoop F force none none xs).events ++
           (processItem F force (danaLoop F force none none xs).itemname
             (danaLoop F force none none xs).epoch i).events))) ∧
    (∀ (F : DANAFramework It Cfg Pre Res) (lockF : String → String → Bool)
        (pidfile programname : String) (timeinterval : Nat) (force : Bool) (fuel : Nat),
      lockF pidfile programname = true →
      (danaJob F force).1.1 = ExitCode.Failed →
      run F lockF pidfile programname timeinterval force (fuel + 1) =
        runIteration F timeinterval force ++
          run F lockF pidfile programname timeinterval force fuel) := by
  refine ⟨?_, ?_, ?_⟩
  · intro F force e hfetch
    exact danaJob_fetch_err hfetch
  · intro F force xs ys i msg hfetch h1 h2
    have hc := @danaLoop_cons_raise It Cfg Pre Res F force i
      (danaLoop F force none none xs).itemname (danaLoop F force none none xs).epoch
      ys _ h2
    have hraised : (danaLoop F force none none (xs ++ i :: ys)).raised =
        some (PyError.other msg) := by
      rw [danaLoop_append h1, hc]
      exact h2
    have hevents : (danaLoop F force none none (xs ++ i :: ys)).events =
        (danaLoop F force none none xs).events ++
          (processItem F force (danaLoop F force none none xs).itemname
            (danaLoop F force none none xs).epoch i).events := by
      rw [danaLoop_append h1, hc]
    rw [danaJob_of_loop_raise hfetch hraised, hevents]
  · intro F lockF pidfile programname timeinterval force fuel hlock hfail
    simp [run, hlock, runCycles]

/-- Witness for C4: the fetch-failure case on `FFetch`, the
escaping-unclassified-failure case on `FOther` (item 1 is never visited),
and the run-loop continuation after `FFetch`'s Failed cycle. -/
theorem claim_C4_witness :
    danaJob FFetch false =
      ((ExitCode.Failed, excInfoStr (PyError.other ("DB down"))), [Event.getDataItemsCall]) ∧
    danaJob FOther false =
      ((ExitCode.Failed, excInfoStr (PyError.other ("TypeError: boom"))),
       [Event.getDataItemsCall, Event.isProcessedCall 0, Event.isValidCall 0]) ∧
    run FFetch (fun _ _ => true) ("pid") ("prog") 60 false 1 =
      runIteration FFetch 60 false ++
        run FFetch (fun _ _ => true) ("pid") ("prog") 60 false 0 := by
  refine ⟨claim_C4_cycle_abort.1 FFetch false _ rfl, ?_,
    claim_C4_cycle_abort.2.2 FFetch (fun _ _ => true) ("pid") ("prog") 60 false 0 rfl rfl⟩
  have h2 := claim_C4_cycle_abort.2.1 FOther false [] [1] 0 ("TypeError: boom")
    rfl rfl (by decide)
  rw [h2]
  decide

/-- C6: Skip-check idempotence.  With `force = false` against a repository
where every item is already marked processed, a cycle performs exactly the
fetch and one skip check per item — zero pipeline invocations beyond them —
and succeeds, so a repeated run does nothing more; with `force = true` the
skip check is never consulted and every item enters the pipeline (its
validation is invoked), regardless of any processed marker. -/
theorem claim_C6_idempotence :
    (∀ (F : DANAFramework It Cfg Pre Res) (items : List It),
      F.getDataItems = Except.ok items →
      (∀ i ∈ items, F.isProcessed i = Except.ok true) →
      danaJob F false = ((ExitCode.Success, ""),
        Event.getDataItemsCall :: items.map (fun i => Event.isProcessedCall i)) ∧
      ((danaJob F false).2.countP Event.isPipelineStep) = 0) ∧
    (∀ (F : DANAFramework It Cfg Pre Res) (items : List It),
      F.getDataItems = Except.ok items →
      (∀ i ∈ items, (runItemBody F true i).raised = none) →
      (danaJob F true).1 = (ExitCode.Success, "") ∧
      (∀ i ∈ items, Event.isValidCall i ∈ (danaJob F true).2) ∧
      (∀ ev ∈ (danaJob F true).2, ev.isSkipCheck = false)) := by
  constructor
  · intro F items hfetch hall
    have hloop := danaLoop_all_processed hall none none
    have hraised : (danaLoop F false none none items).raised = none := by rw [hloop]
    have hjob := danaJob_of_loop_ok hfetch hraised
    constructor
    · rw [hjob, hloop]
    · rw [hjob, hloop]
      refine List.countP_eq_zero.2 ?_
      intro ev hev
      rcases List.mem_cons.1 hev with rfl | hev
      · simp [Event.isPipelineStep]
      · obtain ⟨j, hj, rfl⟩ := List.mem_map.1 hev
        simp [Event.isPipelineStep]
  · intro F items hfetch hall
    have hsh := danaLoop_true_shape hall none none
    have hjob := danaJob_of_loop_ok hfetch hsh.1
    refine ⟨by rw [hjob], ?_, ?_⟩
    · intro i hi
      rw [hjob]
      exact List.mem_cons_of_mem _ (hsh.2.1 i hi)
    · intro ev hev
      rw [hjob] at hev
      rcases List.mem_cons.1 hev with rfl | hev
      · rfl
      · exact hsh.2.2 ev hev

/-- Witness for C6 on `FProc` (two items, both marked processed, pipeline
clean): the unforced cycle performs only the fetch and two skip checks; the
forced cycle succeeds, validates item 1, and never consults the processed
marker. -/
theorem claim_C6_witness :
    danaJob FProc false =
      ((ExitCode.Success, ""),
       [Event.getDataItemsCall, Event.isProcessedCall 0, Event.isProcessedCall 1]) ∧
    ((danaJob FProc false).2.countP Event.isPipelineStep) = 0 ∧
    (danaJob FProc true).1 = (ExitCode.Success, "") ∧
    Event.isValidCall 1 ∈ (danaJob FProc true).2 ∧
    ((danaJob FProc true).2.countP Event.isSkipCheck) = 0 := by
  have h1 := claim_C6_idempotence.1 FProc [0, 1] rfl (fun i hi => by fin_cases hi <;> rfl)
  have h2 := claim_C6_idempotence.2 FProc [0, 1] rfl (fun i hi => by fin_cases hi <;> rfl)
  refine ⟨h1.1, h1.2, h2.1, h2.2.1 1 (by decide), ?_⟩
  refine List.countP_eq_zero.2 ?_
  intro ev hev
  simp [h2.2.2 ev hev]

/-- Counterexample to C8 as stated.  `FA` and `FB` are identical
implementations except for the item's current epoch (7 versus 9).  In both
cycles the `onError` invocation carries the same canonical components
`(ItemName, Item, Phase, cause)`, yet the two invocations differ — their
epoch arguments are 7 and 9 respectively.  The orchestrator therefore does
not invoke `onError` with exactly the canonical four-component tuple: the
call at line 316 structurally passes the epoch as well (five positional
arguments), even though the base-class `onError` signature at line 204
declares only `(itemname, dataItem, err, phase)`. -/
theorem claim_C8_counterexample :
    (danaJob FA false).2.filterMap Event.onErrorEpoch = [7] ∧
    (danaJob FB false).2.filterMap Event.onErrorEpoch = [9] ∧
    (danaJob FA false).2.filterMap Event.onErrorCanonical =
      (danaJob FB false).2.filterMap Event.onErrorCanonical ∧
    (danaJob FA false).2.filterMap Event.onErrorData ≠
      (danaJob FB false).2.filterMap Event.onErrorData := by
  decide

/-- C8 as amended: whenever the orchestrator routes a per-item classified
failure to the error handler, it invokes `onError` with the five positional
arguments `(itemname, dataItem, epoch, err, err.phase)` — the current epoch
is structurally part of the invocation, and the phase argument is the
failure's own phase attribute.  (The base-class `onError` declaration omits
the epoch parameter; the call site does not.) -/
theorem claim_C8_amended (F : DANAFramework It Cfg Pre Res) (force : Bool) (i : It)
    (nm0 : Option String) (ep0 : Option Nat) (err : DANAException) (n : String) (p : Nat)
    (hr : (runItemBody F force i).raised = some (PyError.dana err))
    (hn : ((runItemBody F force i).itemname <|> nm0) = some n)
    (hp : ((runItemBody F force i).epoch <|> ep0) = some p) :
    processItem F force nm0 ep0 i =
      ⟨(runItemBody F force i).events ++ [Event.onErrorCall n i p err err.phase],
       some n, some p, none⟩ ∧
    (processItem F force nm0 ep0 i).events.filterMap Event.onErrorData =
      [(n, i, p, err, err.phase)] := by
  have hmain := processItem_handler hr hn hp
  refine ⟨hmain, ?_⟩
  rw [hmain]
  show ((runItemBody F force i).events ++
      [Event.onErrorCall n i p err err.phase]).filterMap Event.onErrorData = _
  rw [List.filterMap_append, filterMap_onErrorData_nil runItemBody_no_onError]
  rfl

/-- Witness for the amended C8 on `FA`: the single routed failure is passed
to `onError` as the full five-argument tuple, epoch included. -/
theorem claim_C8_witness :
    (processItem FA false none none 0).events.filterMap Event.onErrorData =
      [(("item0"), 0, 7, DANAException.ResultComputationError ("boom") ("pre") ("none"),
        "COMPU")] := by
  have h := claim_C8_amended FA false 0 none none
    (DANAException.ResultComputationError ("boom") ("pre") ("none")) ("item0") 7
    (by decide) (by decide) (by decide)
  exact h.2

/-- C9: Every classified failure carries a phase tag that corresponds to one
of the five abstract spec phases PPROC_CALIB, PPROC, COMPU_CALIB (written
CALIB by the multi-configuration calibration error), COMPU, SAVE (written
SAVIN); the tag is fixed by the exception's construction, and every
`onError` invocation in any cycle trace observes exactly the tag the error
was created with. -/
theorem claim_C9_phase_tags :
    (∀ e : DANAException, ∃ t : SpecPhase, specTagOf e.phase = some t) ∧
    (∀ (F : DANAFramework It Cfg Pre Res) (force : Bool) (n : String) (j : It) (p : Nat)
        (e : DANAException) (ph : String),
      Event.onErrorCall n j p e ph ∈ (danaJob F force).2 →
      ph = e.phase ∧ ∃ t : SpecPhase, specTagOf ph = some t) := by
  constructor
  · intro e
    cases e <;> exact ⟨_, rfl⟩
  · intro F force n j p e ph hev
    have hp := danaJob_onError_phase hev
    refine ⟨hp, ?_⟩
    rw [hp]
    cases e <;> exact ⟨_, rfl⟩

/-- Witness for C9 on `FA`'s routed computation failure. -/
theorem claim_C9_witness :
    ("COMPU" = (DANAException.ResultComputationError ("boom") ("pre") ("none")).phase) ∧
    (∃ t : SpecPhase, specTagOf ("COMPU") = some t) :=
  claim_C9_phase_tags.2 FA false ("item0") 0 7
    (DANAException.ResultComputationError ("boom") ("pre") ("none")) ("COMPU") (by decide)

/-- Counterexample to C10 as stated.  On `F10`, item 0 runs the full
pipeline (binding the cycle's locals `itemname = "A"`, `epoch = 3`) and then
item 1's `isValid` raises a classified `CalibrationError`.  Contrary to the
claim, the failure IS routed to `onError` — using item 0's stale name and
epoch with item 1's data item — and the cycle returns Success, not
Failed. -/
theorem claim_C10_counterexample :
    danaJob F10 false =
      ((ExitCode.Success, ""),
       [Event.getDataItemsCall, Event.isProcessedCall 0, Event.isValidCall 0,
        Event.getItemNameCall 0, Event.getCurrentEpochCall 0, Event.preProcessCall ("A") 0 3,
        Event.getConfigsCall ("A") 0 ("pre"), Event.saveCall ("A") 0 3,
        Event.isProcessedCall 1, Event.isValidCall 1,
        Event.onErrorCall ("A") 1 3 (DANAException.CalibrationError ("vboom")) ("CALIB")]) ∧
    ((danaJob F10 false).2.countP Event.isOnError) = 1 := by
  decide

/-- C10 as amended: a classified failure raised by `isProcessed` or
`isValid` behaves in two distinct ways.  If no earlier item in the cycle
has bound the locals `itemname` and `epoch` (for instance on the first
item), evaluating the handler's argument list raises `UnboundLocalError`,
the failure is not routed to `onError`, the cycle aborts with a Failed
outcome, and the remaining items are unprocessed.  But if an earlier item
already bound the locals, `onError` IS invoked — with that earlier item's
stale name and epoch alongside the current data item — and the cycle
continues. -/
theorem claim_C10_amended :
    (∀ (F : DANAFramework It Cfg Pre Res) (force : Bool) (i : It) (rest : List It)
        (e : DANAException),
      F.getDataItems = Except.ok (i :: rest) →
      (force = true ∨ F.isProcessed i = Except.ok false) →
      F.isValid i = Except.error (PyError.dana e) →
      danaJob F force =
        ((ExitCode.Failed, excInfoStr (unboundLocal ("itemname"))),
         Event.getDataItemsCall :: (skipEvs force i ++ [Event.isValidCall i])) ∧
      ((danaJob F force).2.countP Event.isOnError) = 0) ∧
    (∀ (F : DANAFramework It Cfg Pre Res) (i : It) (rest : List It) (e : DANAException),
      F.getDataItems = Except.ok (i :: rest) →
      F.isProcessed i = Except.error (PyError.dana e) →
      danaJob F false =
        ((ExitCode.Failed, excInfoStr (unboundLocal ("itemname"))),
         [Event.getDataItemsCall, Event.isProcessedCall i]) ∧
      ((danaJob F false).2.countP Event.isOnError) = 0) ∧
    (∀ (F : DANAFramework It Cfg Pre Res) (force : Bool) (i : It) (n : String) (p : Nat)
        (e : DANAException),
      (force = true ∨ F.isProcessed i = Except.ok false) →
      F.isValid i = Except.error (PyError.dana e) →
      processItem F force (some n) (some p) i =
        ⟨skipEvs force i ++ [Event.isValidCall i, Event.onErrorCall n i p e e.phase],
         some n, some p, none⟩) := by
  refine ⟨?_, ?_, ?_⟩
  · intro F force i rest e hfetch hP hv
    have hbody := runItemBody_validErr hP hv
    have hr : (runItemBody F force i).raised = some (PyError.dana e) := by rw [hbody]
    have hn : ((runItemBody F force i).itemname <|> none) = none := by rw [hbody]; rfl
    have hesc : processItem F force none none i =
        ⟨skipEvs force i ++ [Event.isValidCall i], none, none,
         some (unboundLocal ("itemname"))⟩ := by
      rw [processItem_unbound_name hr hn, hbody]
      rfl
    have hloop := @danaLoop_cons_raise It Cfg Pre Res F force i none none rest _
      (by rw [hesc])
    have hjob := danaJob_of_loop_raise hfetch (by rw [hloop, hesc])
    rw [hloop, hesc] at hjob
    refine ⟨hjob, ?_⟩
    rw [hjob]
    refine List.countP_eq_zero.2 ?_
    intro ev hev
    rcases List.mem_cons.1 hev with rfl | hev
    · simp [Event.isOnError]
    · rcases List.mem_append.1 hev with hev | hev
      · cases force <;> simp [skipEvs] at hev
        subst hev
        simp [Event.isOnError]
      · fin_cases hev
        simp [Event.isOnError]
  · intro F i rest e hfetch hp2
    have hbody := runItemBody_skipErr hp2
    have hr : (runItemBody F false i).raised = some (PyError.dana e) := by rw [hbody]
    have hn : ((runItemBody F false i).itemname <|> none) = none := by rw [hbody]; rfl
    have hesc : processItem F false none none i =
        ⟨[Event.isProcessedCall i], none, none, some (unboundLocal ("itemname"))⟩ := by
      rw [processItem_unbound_name hr hn, hbody]
      rfl
    have hloop := @danaLoop_cons_raise It Cfg Pre Res F false i none none rest _
      (by rw [hesc])
    have hjob := danaJob_of_loop_raise hfetch (by rw [hloop, hesc])
    rw [hloop, hesc] at hjob
    refine ⟨hjob, ?_⟩
    rw [hjob]
    refine List.countP_eq_zero.2 ?_
    intro ev hev
    fin_cases hev <;> simp [Event.isOnError]
  · intro F force i n p e hP hv
    have hbody := runItemBody_validErr hP hv
    have hr : (runItemBody F force i).raised = some (PyError.dana e) := by rw [hbody]
    have hn : ((runItemBody F force i).itemname <|> some n) = some n := by rw [hbody]; rfl
    have hp : ((runItemBody F force i).epoch <|> some p) = some p := by rw [hbody]; rfl
    rw [processItem_handler hr hn hp, hbody]
    simp

/-- Witness for the amended C10 on `F10b`: the first item's classified
validation failure aborts the whole cycle through the handler's unbound
`itemname`, and the same failure at stale locals `("Z", 9)` is instead
routed to `onError` with those stale values. -/
theorem claim_C10_witness :
    danaJob F10b false =
      ((ExitCode.Failed, excInfoStr (unboundLocal ("itemname"))),
       [Event.getDataItemsCall, Event.isProcessedCall 0, Event.isValidCall 0]) ∧
    ((danaJob F10b false).2.countP Event.isOnError) = 0 ∧
    processItem F10b false (some ("Z")) (some 9) 0 =
      ⟨[Event.isProcessedCall 0, Event.isValidCall 0,
        Event.onErrorCall ("Z") 0 9 (DANAException.CalibrationError ("vboom")) ("CALIB")],
       some ("Z"), some 9, none⟩ := by
  have ha := claim_C10_amended.1 F10b false 0 [1] (DANAException.CalibrationError ("vboom"))
    rfl (Or.inr rfl) rfl
  have hc := claim_C10_amended.2.2 F10b false 0 ("Z") 9
    (DANAException.CalibrationError ("vboom")) (Or.inr rfl) rfl
  refine ⟨?_, ha.2, ?_⟩
  · rw [ha.1]
    decide
  · rw [hc]
    decide

end SuryaDANA
